import Mathlib

/-!
Verification development for the Raspberry-Pi-Pico thermostat repository.

Shallow embedding of the climate-control core:
* `Scripts/heating.py` — the relay debounce controller (`HeaterController`);
  the AC controller (`scripts/air_conditioning.py`) is not present in the
  source tree, and per spec section 4.1 it is the same controller bound to a
  different pin, so the single `RelayState` model covers both devices.
* `Scripts/monitors.py` — `ACMonitor.run` / `HeaterMonitor.run`, the
  hysteresis threshold monitors.
* `Scripts/scheduler.py` — `ScheduleMonitor` (`_parse_time`,
  `_find_active_schedule`, `_apply_schedule`, `run`, `reload_config`).
* `Scripts/web_server.py` — `_handle_update` and `_handle_schedule_update`.
* `main.py` — the default config and the startup hold-mode reset block.

Python floats are modelled as rationals (every comparison the code performs is
between decimal values that behave identically over `ℚ`), `time.ticks_ms`
timestamps as natural-number milliseconds on a monotone clock (so
`time.ticks_diff` is subtraction), `time.time()` as a rational number of
seconds, Python strings as `List Char`, and the config dict as a record of
`Option` fields (`none` = key absent, matching `dict.get` defaults).
-/

namespace Thermostat

/-- Python strings are embedded as lists of characters so that all string
operations the code performs (split, strip, int/float conversion,
concatenation, equality) are structurally recursive. -/
abbrev PyStr := List Char

/-! ## Relay debounce controller — Scripts/heating.py, class HeaterController -/

/-- State of one relay debounce controller (`HeaterController.__init__`).
`output` is the physical relay pin level (`self.relay`), `is_on` the tracked
state, `last_state_change` the `time.ticks_ms()` stamp of the last accepted
transition (milliseconds), and the two dwell times are in seconds.  There is
no queue of pending requests anywhere in the state: a rejected request leaves
the controller exactly as it was. -/
structure RelayState where
  output : Bool
  is_on : Bool
  last_state_change : ℕ
  min_run_time : ℚ
  min_off_time : ℚ
deriving DecidableEq, Repr

/-- Constructor: relay starts off (`self.relay.off()`, `self.is_on = False`,
`self.last_state_change = time.ticks_ms()`). -/
def RelayState.make (now : ℕ) (min_run min_off : ℚ) : RelayState :=
  { output := false
    is_on := false
    last_state_change := now
    min_run_time := min_run
    min_off_time := min_off }

/-- `time.ticks_diff(now, self.last_state_change) / 1000` (Python true
division; exact over ℚ).  On the monotone clock of the model the tick
difference is natural-number subtraction. -/
def RelayState.time_since_change (s : RelayState) (now : ℕ) : ℚ :=
  ((now - s.last_state_change : ℕ) : ℚ) / 1000

/-- `HeaterController.turn_on` (heating.py lines 21-38).  Returns the boolean
result together with the updated state. -/
def RelayState.turn_on (s : RelayState) (now : ℕ) : Bool × RelayState :=
  if s.is_on then (true, s)
  else if s.time_since_change now < s.min_off_time then (false, s)
  else
    (true, { s with output := true, is_on := true, last_state_change := now })

/-- `HeaterController.turn_off` (heating.py lines 40-57). -/
def RelayState.turn_off (s : RelayState) (now : ℕ) : Bool × RelayState :=
  if ¬ s.is_on then (true, s)
  else if s.time_since_change now < s.min_run_time then (false, s)
  else
    (true, { s with output := false, is_on := false, last_state_change := now })

/-- `HeaterController.force_off` (heating.py lines 63-68). -/
def RelayState.force_off (s : RelayState) (now : ℕ) : RelayState :=
  { s with output := false, is_on := false, last_state_change := now }

/-- A request arriving at the controller: which method is called. -/
inductive RelayCmd where
  | turnOn
  | turnOff
deriving DecidableEq, Repr

/-- One call of `turn_on`/`turn_off` at a given `ticks_ms` timestamp,
keeping only the state. -/
def relayStep (s : RelayState) (e : RelayCmd × ℕ) : RelayState :=
  match e.1 with
  | RelayCmd.turnOn => (s.turn_on e.2).2
  | RelayCmd.turnOff => (s.turn_off e.2).2

/-- Run a whole sequence of timed `turn_on`/`turn_off` calls. -/
def relayRun (s : RelayState) : List (RelayCmd × ℕ) → RelayState
  | [] => s
  | e :: es => relayRun (relayStep s e) es

/-- The output transitions produced by a call sequence: each time the relay
pin level flips, record the new level and the timestamp of the call. -/
def relayTransitions (s : RelayState) : List (RelayCmd × ℕ) → List (Bool × ℕ)
  | [] => []
  | e :: es =>
    let s' := relayStep s e
    if s'.output = s.output then relayTransitions s' es
    else (s'.output, e.2) :: relayTransitions s' es

/-- The call timestamps are nondecreasing and never precede the given instant
(the controller's clock is monotone). -/
def timesMono : ℕ → List (RelayCmd × ℕ) → Bool
  | _, [] => true
  | t0, e :: es => decide (t0 ≤ e.2) && timesMono e.2 es

/-- Adjacent output transitions alternate and honour the dwell times: a
transition to `true` (off→on) comes at least `min_off` seconds after the
previous transition, a transition to `false` (on→off) at least `min_run`
seconds after it.  The first transition is measured from the initial
`last_state_change`. -/
def gapsOK (minRun minOff : ℚ) : Bool → ℕ → List (Bool × ℕ) → Prop
  | _, _, [] => True
  | b, t, (b', t') :: rest =>
      b' = !b ∧
      ((t' - t : ℕ) : ℚ) / 1000 ≥ (if b' then minOff else minRun) ∧
      gapsOK minRun minOff b' t' rest

/-! ## Threshold monitors — Scripts/monitors.py, classes ACMonitor / HeaterMonitor -/

/-- Python truthiness of the `last_notified_state` attribute, which ranges
over `None`, `True`, `False` (`if not self.last_notified_state:` /
`if self.last_notified_state:`). -/
def truthy : Option Bool → Bool
  | some b => b
  | none => false

/-- Mutable state of one threshold monitor: its relay controller and the
`last_notified_state` flag (`ACMonitor.__init__` / `HeaterMonitor.__init__`
set the flag to `None`). -/
structure ThresholdState where
  relay : RelayState
  last_notified_state : Option Bool
deriving DecidableEq, Repr

/-- A freshly constructed monitor over a freshly constructed controller. -/
def ThresholdState.make (now : ℕ) (min_run min_off : ℚ) : ThresholdState :=
  { relay := RelayState.make now min_run min_off
    last_notified_state := none }

/-- One tick of `ACMonitor.run` (monitors.py lines 180-207).
`reading` is the first sensor value of the snapshot, or `none` when the
snapshot is empty (`if not temps: return`).  The result carries the new
state, the list of notifications sent during the tick (each recorded as the
boolean state it announces), and, as instrumentation, the relay command the
tick issued together with the boolean the controller returned
(`none` when the tick stayed inside the dead band and called nothing). -/
def ACMonitor.run (m : ThresholdState) (reading : Option ℚ)
    (target_temp temp_swing : ℚ) (now : ℕ) :
    ThresholdState × List Bool × Option (Bool × Bool) :=
  match reading with
  | none => (m, [], none)
  | some current_temp =>
    if current_temp > target_temp + temp_swing then
      let r := m.relay.turn_on now
      if r.1 then
        if ¬ truthy m.last_notified_state then
          ({ relay := r.2, last_notified_state := some true }, [true],
            some (true, r.1))
        else ({ m with relay := r.2 }, [], some (true, r.1))
      else ({ m with relay := r.2 }, [], some (true, r.1))
    else if current_temp < target_temp - temp_swing then
      let r := m.relay.turn_off now
      if r.1 then
        if truthy m.last_notified_state then
          ({ relay := r.2, last_notified_state := some false }, [false],
            some (false, r.1))
        else ({ m with relay := r.2 }, [], some (false, r.1))
      else ({ m with relay := r.2 }, [], some (false, r.1))
    else (m, [], none)

/-- One tick of `HeaterMonitor.run` (monitors.py lines 226-253): same shape
with the comparisons mirrored (turn on below `target - swing`, off above
`target + swing`). -/
def HeaterMonitor.run (m : ThresholdState) (reading : Option ℚ)
    (target_temp temp_swing : ℚ) (now : ℕ) :
    ThresholdState × List Bool × Option (Bool × Bool) :=
  match reading with
  | none => (m, [], none)
  | some current_temp =>
    if current_temp < target_temp - temp_swing then
      let r := m.relay.turn_on now
      if r.1 then
        if ¬ truthy m.last_notified_state then
          ({ relay := r.2, last_notified_state := some true }, [true],
            some (true, r.1))
        else ({ m with relay := r.2 }, [], some (true, r.1))
      else ({ m with relay := r.2 }, [], some (true, r.1))
    else if current_temp > target_temp + temp_swing then
      let r := m.relay.turn_off now
      if r.1 then
        if truthy m.last_notified_state then
          ({ relay := r.2, last_notified_state := some false }, [false],
            some (false, r.1))
        else ({ m with relay := r.2 }, [], some (false, r.1))
      else ({ m with relay := r.2 }, [], some (false, r.1))
    else (m, [], none)

/-- The relay command a tick issues: first component of the instrumentation
(`some true` = the tick called `turn_on`, `some false` = it called
`turn_off`, `none` = it called neither). -/
def cmdIssued (out : ThresholdState × List Bool × Option (Bool × Bool)) :
    Option Bool :=
  out.2.2.map Prod.fst

/-- A sequence of AC monitor ticks; each tick supplies the sensor reading,
the current target and swing (mutable fields, rewritten by the schedule
engine or manual overrides between ticks) and the tick's `ticks_ms` clock. -/
def ACMonitor.runTrace (m : ThresholdState) :
    List (Option ℚ × ℚ × ℚ × ℕ) → ThresholdState
  | [] => m
  | (r, T, s, now) :: rest =>
    ACMonitor.runTrace (ACMonitor.run m r T s now).1 rest

/-- A sequence of heater monitor ticks. -/
def HeaterMonitor.runTrace (m : ThresholdState) :
    List (Option ℚ × ℚ × ℚ × ℕ) → ThresholdState
  | [] => m
  | (r, T, s, now) :: rest =>
    HeaterMonitor.runTrace (HeaterMonitor.run m r T s now).1 rest

/-! ## Python string primitives used by the scheduler and the web server -/

/-- Python `str.split(sep)` for a one-character separator: split at every
occurrence, keeping empty pieces (`"a::b".split(':') == ['a','','b']`,
`"".split(':') == ['']`). -/
def pySplit (sep : Char) : PyStr → List PyStr
  | [] => [[]]
  | c :: rest =>
    let r := pySplit sep rest
    if c = sep then [] :: r
    else
      match r with
      | h :: t => (c :: h) :: t
      | [] => [[c]]

/-- Strip leading and trailing whitespace, as Python `int()`/`float()` do to
their argument before parsing. -/
def pyStrip (s : PyStr) : PyStr :=
  ((s.dropWhile Char.isWhitespace).reverse.dropWhile Char.isWhitespace).reverse

/-- Numeric value of a digit string (most significant first). -/
def digitsVal (l : PyStr) : ℕ :=
  l.foldl (fun acc c => 10 * acc + (c.toNat - 48)) 0

/-- Python `int(string)`: optional sign, then a nonempty run of digits
(whitespace stripped; raising `ValueError` is modelled as `none`). -/
def pyInt? (s : PyStr) : Option ℤ :=
  match pyStrip s with
  | '-' :: ds =>
    if ds ≠ [] ∧ ds.all Char.isDigit then some (-(digitsVal ds : ℤ)) else none
  | '+' :: ds =>
    if ds ≠ [] ∧ ds.all Char.isDigit then some ((digitsVal ds : ℤ)) else none
  | ds =>
    if ds ≠ [] ∧ ds.all Char.isDigit then some ((digitsVal ds : ℤ)) else none

/-- Character-level stage of Python `float(string)`: strip whitespace, take
an optional sign, and split the rest into integer and fractional digit runs
around an optional single decimal point (at least one digit overall).
Returns `(negative, integer digits, fractional digits)`. -/
def pyFloatParse? (s : PyStr) : Option (Bool × PyStr × PyStr) :=
  let core : PyStr → Option (PyStr × PyStr) := fun u =>
    match pySplit '.' u with
    | [i] =>
      if i ≠ [] ∧ i.all Char.isDigit then some (i, []) else none
    | [i, f] =>
      if (i ≠ [] ∨ f ≠ []) ∧ i.all Char.isDigit ∧ f.all Char.isDigit then
        some (i, f)
      else none
    | _ => none
  match pyStrip s with
  | '-' :: u => (core u).map fun r => (true, r)
  | '+' :: u => (core u).map fun r => (false, r)
  | u => (core u).map fun r => (false, r)

/-- Numeric value of a parsed float: integer digits plus fractional digits
scaled by the decimal point position, negated when the sign was `'-'`. -/
def ratOfFloatParse (r : Bool × PyStr × PyStr) : ℚ :=
  let v := (digitsVal r.2.1 : ℚ) +
    (digitsVal r.2.2 : ℚ) / (10 : ℚ) ^ r.2.2.length
  if r.1 then -v else v

/-- Python `float(string)` restricted to the plain decimal forms the
thermostat's forms submit (exponent/`inf`/`nan` forms are never produced by
the dashboard and are not modelled): the signed value of the parsed digit
runs. -/
def pyFloat? (s : PyStr) : Option ℚ :=
  (pyFloatParse? s).map ratOfFloatParse

/-- URL decoding of the one escape the schedule form produces:
`params[time_key].replace('%3A', ':')`. -/
def replace3A : PyStr → PyStr
  | '%' :: '3' :: 'A' :: rest => ':' :: replace3A rest
  | c :: rest => c :: replace3A rest
  | [] => []

/-! ## Data model — schedule entries and the persisted config dict -/

/-- One schedule entry (an element of `config['schedules']`).  Every entry
the program builds (web form save, default config) carries `time` and `name`;
the four numeric keys are optional dict keys, matching the
`if 'ac_target' in schedule:` tests in `_apply_schedule`. -/
structure Schedule where
  time : PyStr
  name : PyStr
  ac_target : Option ℚ := none
  heater_target : Option ℚ := none
  ac_swing : Option ℚ := none
  heater_swing : Option ℚ := none
deriving DecidableEq, Repr

/-- The persisted configuration dict (`config.json`), restricted to the keys
the climate-control core reads.  A `none` field is an absent key, so
`config.get(k, d)` is `Option.getD` and `'k' in config` is `Option.isSome`.
`temp_hold_start_time` distinguishes an absent key (`none`) from a key
holding JSON `null` (`some none`). -/
structure Config where
  ac_target : Option ℚ := none
  ac_swing : Option ℚ := none
  heater_target : Option ℚ := none
  heater_swing : Option ℚ := none
  temp_hold_duration : Option ℚ := none
  temp_hold_start_time : Option (Option ℚ) := none
  schedules : Option (List Schedule) := none
  schedule_enabled : Option Bool := none
  permanent_hold : Option Bool := none
deriving DecidableEq, Repr

/-! ## Schedule engine — Scripts/scheduler.py, class ScheduleMonitor -/

/-- `ScheduleMonitor._parse_time` (scheduler.py lines 33-41): split on `':'`,
convert the first two pieces with `int()`; any failure (missing second piece,
non-numeric piece) returns `None`. -/
def ScheduleMonitor.parse_time (time_str : PyStr) : Option ℤ :=
  match pySplit ':' time_str with
  | p0 :: p1 :: _ =>
    match pyInt? p0, pyInt? p1 with
    | some hours, some minutes => some (hours * 60 + minutes)
    | _, _ => none
  | _ => none

/-- The `for schedule_minutes, schedule in sorted_schedules:` loop of
`_find_active_schedule` (lines 70-75): remember the last entry whose minutes
have passed, `break` (returning the accumulator) at the first that has not. -/
def ScheduleMonitor.walkActive (current_minutes : ℤ) :
    List (ℤ × Schedule) → Option Schedule → Option Schedule
  | [], active => active
  | p :: rest, active =>
    if current_minutes ≥ p.1 then
      ScheduleMonitor.walkActive current_minutes rest (some p.2)
    else active

/-- Ordering of `(minutes, schedule)` pairs by the minutes key, the
comparison Python's `sorted_schedules.sort()` performs. -/
def scheduleKeyLE (a b : ℤ × Schedule) : Prop := a.1 ≤ b.1

instance : DecidableRel scheduleKeyLE := fun a b =>
  inferInstanceAs (Decidable (a.1 ≤ b.1))

instance : IsTotal (ℤ × Schedule) scheduleKeyLE :=
  ⟨fun a b => le_total a.1 b.1⟩

instance : IsTrans (ℤ × Schedule) scheduleKeyLE :=
  ⟨fun _ _ _ => le_trans⟩

/-- Lines 60-67 of `_find_active_schedule`: key every entry by its parsed
minutes, discarding unparseable entries, and sort ascending by minutes.
Python's stable `list.sort()` on `(minutes, schedule)` tuples is modelled by
a stable insertion sort on the minutes key (for entries with equal parsed
minutes CPython would compare the dicts and raise; the model totalises that
corner by keeping the original order). -/
def ScheduleMonitor.sortedKeyed (cfg : Config) : List (ℤ × Schedule) :=
  List.insertionSort scheduleKeyLE
    ((cfg.schedules.getD []).filterMap fun schedule =>
      (ScheduleMonitor.parse_time schedule.time).map fun m => (m, schedule))

/-- `ScheduleMonitor._find_active_schedule` (scheduler.py lines 48-81).
`current_minutes` is the wall clock in minutes since midnight. -/
def ScheduleMonitor.find_active_schedule (cfg : Config)
    (current_minutes : ℤ) : Option Schedule :=
  if ¬ (cfg.schedule_enabled.getD false) then none
  else
    let schedules := cfg.schedules.getD []
    if schedules = [] then none
    else
      let sorted_schedules := ScheduleMonitor.sortedKeyed cfg
      match ScheduleMonitor.walkActive current_minutes sorted_schedules none with
      | some schedule => some schedule
      | none => sorted_schedules.getLast?.map Prod.snd

/-- In-memory state of the schedule engine together with the monitor fields
it mutates: the shared config dict, the two monitors' mutable
`target_temp`/`temp_swing` attributes, `last_applied_schedule`, and
`temp_hold_duration` (read from the config once, in the constructor). -/
structure EngineState where
  config : Config
  ac_target_mon : ℚ
  ac_swing_mon : ℚ
  heater_target_mon : ℚ
  heater_swing_mon : ℚ
  last_applied_schedule : Option PyStr
  temp_hold_duration : ℚ
deriving DecidableEq, Repr

/-- Externally observable side effects of an engine or handler step:
a write of the whole config record to `config.json`, or an outbound chat
notification. -/
inductive Event where
  | persist
  | notify
deriving DecidableEq, Repr

/-- The `changed` flag computed by `_apply_schedule`: some provided schedule
value differs from the corresponding persisted config value (the four keys
are distinct, so each comparison reads the value the dict held on entry). -/
def ScheduleMonitor.applyChanged (st : EngineState) (sch : Schedule) : Bool :=
  (match sch.ac_target with
   | some v => decide (st.config.ac_target ≠ some v)
   | none => false) ||
  (match sch.ac_swing with
   | some v => decide (st.config.ac_swing ≠ some v)
   | none => false) ||
  (match sch.heater_target with
   | some v => decide (st.config.heater_target ≠ some v)
   | none => false) ||
  (match sch.heater_swing with
   | some v => decide (st.config.heater_swing ≠ some v)
   | none => false)

/-- `ScheduleMonitor._apply_schedule` (scheduler.py lines 83-174).  An empty
(`None`) argument or an argument whose identity `time + name` equals
`last_applied_schedule` is a no-op.  Otherwise every provided value is
written into the config (when it differs) and into the monitor fields, the
config is persisted only `if changed`, a notification describing the applied
schedule is always sent, and the identity is recorded.  The model takes the
`config.json` write to succeed. -/
def ScheduleMonitor.apply_schedule (st : EngineState)
    (schedule : Option Schedule) : EngineState × List Event :=
  match schedule with
  | none => (st, [])
  | some sch =>
    let schedule_id := sch.time ++ sch.name
    if st.last_applied_schedule = some schedule_id then (st, [])
    else
      let st1 :=
        match sch.ac_target with
        | some new_ac =>
          { st with
            config := { st.config with ac_target := some new_ac }
            ac_target_mon := new_ac }
        | none => st
      let st2 :=
        match sch.ac_swing with
        | some new_sw =>
          { st1 with
            config := { st1.config with ac_swing := some new_sw }
            ac_swing_mon := new_sw }
        | none => st1
      let st3 :=
        match sch.heater_target with
        | some new_ht =>
          { st2 with
            config := { st2.config with heater_target := some new_ht }
            heater_target_mon := new_ht }
        | none => st2
      let st4 :=
        match sch.heater_swing with
        | some new_sw =>
          { st3 with
            config := { st3.config with heater_swing := some new_sw }
            heater_swing_mon := new_sw }
        | none => st3
      let events :=
        (if ScheduleMonitor.applyChanged st sch then [Event.persist] else [])
          ++ [Event.notify]
      ({ st4 with last_applied_schedule := some schedule_id }, events)

/-- The config mutation of the expiry branch of `ScheduleMonitor.run`:
`config['schedule_enabled'] = True; config['temp_hold_start_time'] = None`. -/
def resumeFlags (c : Config) : Config :=
  { c with schedule_enabled := some true, temp_hold_start_time := some none }

/-- `ScheduleMonitor.run` (scheduler.py lines 176-221): when the engine is in
a non-permanent hold with a recorded start time whose elapsed time reached
`temp_hold_duration`, resume automatic mode (persist the flags, notify);
then resolve the active schedule against the (possibly updated) config and
apply it.  `now` is `time.time()` in seconds, `current_minutes` the wall
clock in minutes since midnight. -/
def ScheduleMonitor.run (st : EngineState) (now : ℚ)
    (current_minutes : ℤ) : EngineState × List Event :=
  let step1 : EngineState × List Event :=
    if ¬ (st.config.schedule_enabled.getD false) ∧
        ¬ (st.config.permanent_hold.getD false) then
      match st.config.temp_hold_start_time.getD none with
      | some temp_hold_start =>
        if now - temp_hold_start ≥ st.temp_hold_duration then
          ({ st with config := resumeFlags st.config },
            [Event.persist, Event.notify])
        else (st, [])
      | none => (st, [])
    else (st, [])
  let st1 := step1.1
  match ScheduleMonitor.find_active_schedule st1.config current_minutes with
  | some sch =>
    let applied := ScheduleMonitor.apply_schedule st1 (some sch)
    (applied.1, step1.2 ++ applied.2)
  | none => (st1, step1.2)

/-- A sequence of engine ticks; each supplies `time.time()` and the wall
clock minutes. -/
def ScheduleMonitor.runTrace (st : EngineState) :
    List (ℚ × ℤ) → EngineState
  | [] => st
  | (now, cur) :: rest =>
    ScheduleMonitor.runTrace (ScheduleMonitor.run st now cur).1 rest

/-- `ScheduleMonitor.reload_config` (scheduler.py lines 223-227): swap in the
new config dict and clear `last_applied_schedule` to force re-application. -/
def ScheduleMonitor.reload_config (st : EngineState) (new_config : Config) :
    EngineState :=
  { st with config := new_config, last_applied_schedule := none }

/-! ## Web server handlers — Scripts/web_server.py, class TempWebServer -/

/-- Outcome of a POST handler, as far as the core state is concerned: a
rendered validation-error page (carrying the error title the source passes to
`_get_error_page`), the status page, a `303` redirect, or the redirect the
outer `except` clause produces after an exception. -/
inductive HandlerResult where
  | errorPage (title : PyStr)
  | statusPage
  | redirect
  | exceptionRedirect
deriving DecidableEq, Repr

/-- The form fields `_handle_update` reads from the POST body (each value
already run through `float()`; `hold_type` is kept as a string). -/
structure UpdateParams where
  ac_target : Option ℚ := none
  heater_target : Option ℚ := none
  hold_type : Option PyStr := none
deriving DecidableEq, Repr

/-- `TempWebServer._handle_update` (web_server.py lines 532-639): validate
`heater ≤ AC` against the submitted-or-current targets, then write the
submitted targets into the monitors and the config, unconditionally enter a
hold (permanent iff `hold_type == 'perm'`, recording `time.time()` as the
temporary-hold start otherwise), reload the schedule monitor, persist and
notify.  The model takes the `config.json` write to succeed. -/
def TempWebServer.handle_update (st : EngineState) (p : UpdateParams)
    (now : ℚ) : EngineState × HandlerResult × List Event :=
  let hold_type := p.hold_type.getD ("temp".data)
  let is_permanent : Bool := decide (hold_type = "perm".data)
  let new_heater_target := p.heater_target.getD (st.config.heater_target.getD 80)
  let new_ac_target := p.ac_target.getD (st.config.ac_target.getD 77)
  if new_heater_target > new_ac_target then
    (st, HandlerResult.errorPage ("Invalid Settings".data), [])
  else
    let st1 :=
      match p.ac_target with
      | some v =>
        { st with
          ac_target_mon := v
          config := { st.config with ac_target := some v } }
      | none => st
    let st2 :=
      match p.heater_target with
      | some v =>
        { st1 with
          heater_target_mon := v
          config := { st1.config with heater_target := some v } }
      | none => st1
    let cfg :=
      { st2.config with
        schedule_enabled := some false
        permanent_hold := some is_permanent
        temp_hold_start_time := some (if is_permanent then none else some now) }
    let st3 := ScheduleMonitor.reload_config { st2 with config := cfg } cfg
    (st3, HandlerResult.statusPage, [Event.persist, Event.notify])

/-- The raw values of one schedule slot (`schedule_i_time` etc.) as they
arrive in the POST body, after the `'+' → ' '` substitution the body parser
applies to every value. -/
structure SlotParams where
  time : Option PyStr := none
  name : Option PyStr := none
  ac : Option PyStr := none
  heater : Option PyStr := none
deriving DecidableEq, Repr

/-- One accepted slot of the schedule form after the character-level checks:
the decoded time string, the schedule name, and the two raw float parses. -/
structure RawSlot where
  time : PyStr
  name : PyStr
  ac : Bool × PyStr × PyStr
  heater : Bool × PyStr × PyStr
deriving DecidableEq, Repr

/-- Character-level stage of the `for i in range(4):` slot-parsing loop of
`_handle_schedule_update` (web_server.py lines 362-442): per slot, a set
time requires AC and heater values, the decoded time must be a valid
`HH:MM`, and the temperatures must parse as floats; the first violation
aborts with the corresponding error page title.  Returns the accepted raw
slots together with `has_any_schedule_data`. -/
def parseSlotsRaw : ℕ → List SlotParams → Except PyStr (List RawSlot × Bool)
  | _, [] => Except.ok ([], false)
  | i, slot :: rest =>
    let has_this :=
      slot.time.isSome || slot.name.isSome || slot.ac.isSome || slot.heater.isSome
    let skip : Except PyStr (List RawSlot × Bool) :=
      (parseSlotsRaw (i + 1) rest).map fun r => (r.1, has_this || r.2)
    match slot.time with
    | none => skip
    | some tstr =>
      if tstr = [] then skip
      else if (slot.ac.getD []) = [] then
        Except.error ("Incomplete Schedule".data)
      else if (slot.heater.getD []) = [] then
        Except.error ("Incomplete Schedule".data)
      else
        let schedule_time := replace3A tstr
        if ¬ (schedule_time.contains ':') ∨
            (pySplit ':' schedule_time).length ≠ 2 then
          Except.error ("Invalid Time".data)
        else
          match pySplit ':' schedule_time with
          | [hs, ms] =>
            match pyInt? hs, pyInt? ms with
            | some hours, some mins =>
              if ¬ (0 ≤ hours ∧ hours ≤ 23 ∧ 0 ≤ mins ∧ mins ≤ 59) then
                Except.error ("Invalid Time".data)
              else
                let schedule_name :=
                  slot.name.getD ("Schedule ".data ++ [Char.ofNat (48 + (i + 1))])
                match pyFloatParse? (slot.ac.getD []),
                    pyFloatParse? (slot.heater.getD []) with
                | some rac, some rheater =>
                  (parseSlotsRaw (i + 1) rest).map fun r =>
                    ({ time := schedule_time
                       name := schedule_name
                       ac := rac
                       heater := rheater } :: r.1, true)
                | _, _ => Except.error ("Invalid Temperature".data)
            | _, _ => Except.error ("Invalid Time".data)
          | _ => Except.error ("Invalid Time".data)

/-- The schedule dict an accepted slot produces:
`{'time': ..., 'name': ..., 'ac_target': float(...), 'heater_target':
float(...)}` (web_server.py lines 434-439). -/
def RawSlot.toSchedule (q : RawSlot) : Schedule :=
  { time := q.time
    name := q.name
    ac_target := some (ratOfFloatParse q.ac)
    heater_target := some (ratOfFloatParse q.heater) }

deriving instance DecidableEq for Except

/-- The full slot-parsing loop: character-level stage followed by the float
conversions. -/
def parseSlots (i : ℕ) (slots : List SlotParams) :
    Except PyStr (List Schedule × Bool) :=
  (parseSlotsRaw i slots).map fun r => (r.1.map RawSlot.toSchedule, r.2)

/-- The schedule validation loop of `_handle_schedule_update` (lines
452-468): `true` when some parsed entry has heater target above AC target
(the loop then renders the "Invalid Schedule" error page). -/
def validateSchedules : List Schedule → Bool
  | [] => false
  | sch :: rest =>
    if (sch.heater_target.getD 80) > (sch.ac_target.getD 77) then true
    else validateSchedules rest

/-- `TempWebServer._handle_schedule_update` (web_server.py lines 253-530):
dispatch on `mode_action` (`resume` / `temporary_hold` / `permanent_hold`
mutate the mode flags, persist, reload the schedule monitor — resume also
immediately resolves and applies the active schedule — and notify); any
other action falls through to the schedule-save path, which parses the four
slots, overwrites `config['schedules']` when the form carried schedule data,
only then validates `heater ≤ AC` per entry, and on success persists,
reloads, and copies the config targets into the monitors (a missing target
key there raises `KeyError`, caught by the outer `except` as a redirect).
The model takes the `config.json` writes to succeed. -/
def TempWebServer.handle_schedule_update (st : EngineState)
    (mode_action : Option PyStr) (slots : List SlotParams)
    (current_minutes : ℤ) : EngineState × HandlerResult × List Event :=
  let action := mode_action.getD []
  if action = "resume".data then
    let cfg := { st.config with
      schedule_enabled := some true, permanent_hold := some false }
    let st1 := ScheduleMonitor.reload_config { st with config := cfg } cfg
    let active := ScheduleMonitor.find_active_schedule cfg current_minutes
    let applied := ScheduleMonitor.apply_schedule st1 active
    (applied.1, HandlerResult.redirect,
      [Event.persist] ++ applied.2 ++ [Event.notify])
  else if action = "temporary_hold".data then
    let cfg := { st.config with
      schedule_enabled := some false, permanent_hold := some false }
    let st1 := ScheduleMonitor.reload_config { st with config := cfg } cfg
    (st1, HandlerResult.redirect, [Event.persist, Event.notify])
  else if action = "permanent_hold".data then
    let cfg := { st.config with
      schedule_enabled := some false, permanent_hold := some true }
    let st1 := ScheduleMonitor.reload_config { st with config := cfg } cfg
    (st1, HandlerResult.redirect, [Event.persist, Event.notify])
  else
    match parseSlots 0 slots with
    | Except.error title => (st, HandlerResult.errorPage title, [])
    | Except.ok parsed =>
      let schedules := parsed.1
      let st1 :=
        if parsed.2 then
          { st with config := { st.config with schedules := some schedules } }
        else st
      if validateSchedules schedules then
        (st1, HandlerResult.errorPage ("Invalid Schedule".data), [])
      else
        let st2 := ScheduleMonitor.reload_config st1 st1.config
        match st2.config.ac_target with
        | none => (st2, HandlerResult.exceptionRedirect, [Event.persist])
        | some a =>
          let stA := { st2 with ac_target_mon := a }
          match st2.config.ac_swing with
          | none => (stA, HandlerResult.exceptionRedirect, [Event.persist])
          | some asw =>
            let stB := { stA with ac_swing_mon := asw }
            match st2.config.heater_target with
            | none => (stB, HandlerResult.exceptionRedirect, [Event.persist])
            | some h =>
              let stC := { stB with heater_target_mon := h }
              match st2.config.heater_swing with
              | none => (stC, HandlerResult.exceptionRedirect, [Event.persist])
              | some hsw =>
                ({ stC with heater_swing_mon := hsw },
                  HandlerResult.redirect, [Event.persist, Event.notify])

/-! ## Startup — main.py -/

/-- The four sample schedules of the default config (main.py lines 105-130). -/
def defaultSchedules : List Schedule :=
  [ { time := "06:00".data, name := "Morning".data
      ac_target := some 75, heater_target := some 72 },
    { time := "12:00".data, name := "Midday".data
      ac_target := some 75, heater_target := some 72 },
    { time := "18:00".data, name := "Evening".data
      ac_target := some 75, heater_target := some 72 },
    { time := "22:00".data, name := "Night".data
      ac_target := some 75, heater_target := some 72 } ]

/-- The default config `load_config` creates when `config.json` is missing
or unreadable (main.py lines 93-133), restricted to the core keys. -/
def defaultConfig : Config :=
  { ac_target := some 75
    ac_swing := some 1
    heater_target := some 72
    heater_swing := some 2
    temp_hold_duration := some 3600
    temp_hold_start_time := some none
    schedules := some defaultSchedules
    schedule_enabled := some true
    permanent_hold := some false }

/-- `load_config` (main.py lines 82-145): the parsed contents of
`config.json` when the file exists and parses, the default config
otherwise. -/
def mainLoadConfig (parsed : Option Config) : Config :=
  parsed.getD defaultConfig

/-- The startup hold-mode reset block (main.py lines 155-171): each of the
three mode keys is forced back to its automatic-mode value, but only when
the key is present in the loaded config (`if 'schedule_enabled' in config:`
and friends). -/
def startupHoldReset (config : Config) : Config :=
  let c1 :=
    if config.schedule_enabled.isSome then
      { config with schedule_enabled := some true }
    else config
  let c2 :=
    if c1.permanent_hold.isSome then
      { c1 with permanent_hold := some false }
    else c1
  if c2.temp_hold_start_time.isSome then
    { c2 with temp_hold_start_time := some none }
  else c2

/-- The config the process runs with right after startup: load (with default
fill-in on a missing/corrupt file) followed by the hold-mode reset. -/
def startupConfig (parsed : Option Config) : Config :=
  startupHoldReset (mainLoadConfig parsed)

/-- The C1 witness state: a relay that has been on since tick 0 with a 30 s
minimum run time and a 5 s minimum off time (the values main.py uses). -/
def relayOnState : RelayState :=
  { output := true, is_on := true, last_state_change := 0,
    min_run_time := 30, min_off_time := 5 }

/-- The C2/C7 witness monitor state: AC running, notified-on flag set. -/
def acOnMonitor : ThresholdState :=
  { relay := relayOnState, last_notified_state := some true }

/-- Invariant of a threshold monitor maintained across ticks: the relay's
software flag agrees with its output pin, and the notified-state flag is
truthy exactly when the output is on. -/
def monInv (m : ThresholdState) : Prop :=
  m.relay.is_on = m.relay.output ∧ truthy m.last_notified_state = m.relay.output

/-- The spec's selection rule, stated in its own words: among the keyed,
sorted entries, "the active schedule is the last one whose minutes ≤ current
minutes".  Declared separately from the source-translated loop so the two
can be compared. -/
def lastLE (current : ℤ) (l : List (ℤ × Schedule)) : Option (ℤ × Schedule) :=
  (l.filter fun p => decide (p.1 ≤ current)).getLast?

/-- A config identical to the default one except that schedules are
disabled, as a hold mode leaves it. -/
def disabledConfig : Config :=
  { defaultConfig with schedule_enabled := some false }

/-- The C4 witness engine state: default targets, schedules present, in a
temporary hold that started at time 0 with the default one-hour duration. -/
def holdEngineState : EngineState :=
  { config := { defaultConfig with
      schedule_enabled := some false
      permanent_hold := some false
      temp_hold_start_time := some (some 0) }
    ac_target_mon := 75
    ac_swing_mon := 1
    heater_target_mon := 72
    heater_swing_mon := 2
    last_applied_schedule := none
    temp_hold_duration := 3600 }

/-- The default 06:00 Morning schedule entry. -/
def morningSchedule : Schedule :=
  { time := "06:00".data, name := "Morning".data,
    ac_target := some 75, heater_target := some 72 }

/-- An engine whose persisted config already matches the Morning schedule's
targets (the state right after a reboot, before any schedule has been
applied in this process). -/
def matchedEngineState : EngineState :=
  { config := defaultConfig
    ac_target_mon := 75
    ac_swing_mon := 1
    heater_target_mon := 72
    heater_swing_mon := 2
    last_applied_schedule := none
    temp_hold_duration := 3600 }

/-- An engine whose persisted targets differ from the Morning schedule's,
so that applying it has something to persist. -/
def freshEngineState : EngineState :=
  { config := { defaultConfig with
      ac_target := some 70, heater_target := some 65 }
    ac_target_mon := 70
    ac_swing_mon := 1
    heater_target_mon := 65
    heater_swing_mon := 2
    last_applied_schedule := none
    temp_hold_duration := 3600 }

/-- An engine in Automatic mode with the default targets in effect. -/
def automaticEngineState : EngineState :=
  { config := defaultConfig
    ac_target_mon := 75
    ac_swing_mon := 1
    heater_target_mon := 72
    heater_swing_mon := 2
    last_applied_schedule := none
    temp_hold_duration := 3600 }

/-- A persisted record as a reboot after an active permanent hold would
leave it: all three mode keys present, recording a hold. -/
def heldOverConfig : Config :=
  { defaultConfig with
    schedule_enabled := some false
    permanent_hold := some true
    temp_hold_start_time := some (some 5) }

/-- An engine in Automatic mode carrying a stale temporary-hold timestamp
(`temp_hold_start_time = 0`), as left behind by a manual-targets temporary
hold followed by a dashboard resume (the resume branch never clears the
timestamp); schedules list empty to keep the tick small. -/
def staleEngineState : EngineState :=
  { config := { defaultConfig with
      temp_hold_start_time := some (some 0)
      schedules := some [] }
    ac_target_mon := 75
    ac_swing_mon := 1
    heater_target_mon := 72
    heater_swing_mon := 2
    last_applied_schedule := none
    temp_hold_duration := 3600 }

/-- The state the dashboard temporary-hold action produces from
`staleEngineState`: schedules paused, stale timestamp still present. -/
def heldStaleState : EngineState :=
  { config := { defaultConfig with
      schedule_enabled := some false
      permanent_hold := some false
      temp_hold_start_time := some (some 0)
      schedules := some [] }
    ac_target_mon := 75
    ac_swing_mon := 1
    heater_target_mon := 72
    heater_swing_mon := 2
    last_applied_schedule := none
    temp_hold_duration := 3600 }

/-- A dashboard-entered temporary hold with no timestamp recorded
(`temp_hold_start_time` holding JSON null). -/
def noTimerHoldState : EngineState :=
  { config := { defaultConfig with
      schedule_enabled := some false
      permanent_hold := some false
      temp_hold_start_time := some none }
    ac_target_mon := 75
    ac_swing_mon := 1
    heater_target_mon := 72
    heater_swing_mon := 2
    last_applied_schedule := none
    temp_hold_duration := 3600 }

/-- An engine with the default valid targets (heater 72 ≤ AC 75) and an
empty stored schedule list. -/
def scheduleSaveState : EngineState :=
  { config := { defaultConfig with schedules := some [] }
    ac_target_mon := 75
    ac_swing_mon := 1
    heater_target_mon := 72
    heater_swing_mon := 2
    last_applied_schedule := none
    temp_hold_duration := 3600 }

/-- A schedule-form submission whose only filled slot has heater target 80
above AC target 75 — a submission the validation must reject. -/
def badSlots : List SlotParams :=
  [ { time := some ("08:00".data), name := some ("Bad".data),
      ac := some ("75".data), heater := some ("80".data) },
    {}, {}, {} ]

/-- The raw parse of the one filled slot of `badSlots`. -/
def badRawSlot : RawSlot :=
  { time := "08:00".data
    name := "Bad".data
    ac := (false, ['7', '5'], [])
    heater := (false, ['8', '0'], []) }

/-- The schedule entry `badSlots` parses to. -/
def badSchedule : Schedule :=
  { time := "08:00".data, name := "Bad".data,
    ac_target := some 75, heater_target := some 80 }

/-! ## Lemmas and claim theorems -/

/-- Monotonicity of call timestamps is stable under lowering the start
instant. -/
lemma timesMono_weaken {a b : ℕ} (h : a ≤ b) {l : List (RelayCmd × ℕ)}
    (hl : timesMono b l = true) : timesMono a l = true := by
  cases l with
  | nil => rfl
  | cons e es =>
    simp only [timesMono, Bool.and_eq_true, decide_eq_true_eq] at hl ⊢
    exact ⟨le_trans h hl.1, hl.2⟩

/-- Core debounce induction: starting from any controller state whose
software flag agrees with its output pin, a monotone call sequence can only
produce alternating transitions separated by the dwell times. -/
lemma relay_gapsOK (cs : List (RelayCmd × ℕ)) :
    ∀ s : RelayState, s.is_on = s.output →
      timesMono s.last_state_change cs = true →
      gapsOK s.min_run_time s.min_off_time s.output s.last_state_change
        (relayTransitions s cs) := by
  induction cs with
  | nil => intro s _ _; exact trivial
  | cons e es ih =>
    obtain ⟨c, t⟩ := e
    intro s hinv hmono
    simp only [timesMono, Bool.and_eq_true, decide_eq_true_eq] at hmono
    obtain ⟨hle, hmono'⟩ := hmono
    cases c with
    | turnOn =>
      by_cases hon : s.is_on
      · have hs' : relayStep s (RelayCmd.turnOn, t) = s := by
          simp [relayStep, RelayState.turn_on, hon]
        simpa [relayTransitions, hs'] using
          ih s hinv (timesMono_weaken hle hmono')
      · by_cases hrej : s.time_since_change t < s.min_off_time
        · have hs' : relayStep s (RelayCmd.turnOn, t) = s := by
            simp [relayStep, RelayState.turn_on, hon, hrej]
          simpa [relayTransitions, hs'] using
            ih s hinv (timesMono_weaken hle hmono')
        · have hs' : relayStep s (RelayCmd.turnOn, t) =
              { s with output := true, is_on := true, last_state_change := t } := by
            simp [relayStep, RelayState.turn_on, hon, hrej]
          have hout : s.output = false := by rw [← hinv]; exact Bool.not_eq_true _ ▸ (by simpa using hon)
          simp only [relayTransitions, hs', hout]
          refine ?_
          simp only [Bool.true_eq_false, if_false, gapsOK]
          refine ⟨rfl, ?_, ?_⟩
          · simpa [RelayState.time_since_change] using not_lt.mp hrej
          · simpa using ih { s with output := true, is_on := true, last_state_change := t }
              rfl hmono'
    | turnOff =>
      by_cases hon : s.is_on
      · by_cases hrej : s.time_since_change t < s.min_run_time
        · have hs' : relayStep s (RelayCmd.turnOff, t) = s := by
            simp [relayStep, RelayState.turn_off, hon, hrej]
          simpa [relayTransitions, hs'] using
            ih s hinv (timesMono_weaken hle hmono')
        · have hs' : relayStep s (RelayCmd.turnOff, t) =
              { s with output := false, is_on := false, last_state_change := t } := by
            simp [relayStep, RelayState.turn_off, hon, hrej]
          have hout : s.output = true := by rw [← hinv]; exact hon
          simp only [relayTransitions, hs', hout]
          simp only [Bool.false_eq_true, if_false, gapsOK]
          refine ⟨rfl, ?_, ?_⟩
          · simpa [RelayState.time_since_change] using not_lt.mp hrej
          · simpa using ih { s with output := false, is_on := false, last_state_change := t }
              rfl hmono'
      · have hs' : relayStep s (RelayCmd.turnOff, t) = s := by
          simp [relayStep, RelayState.turn_off, hon]
        simpa [relayTransitions, hs'] using
          ih s hinv (timesMono_weaken hle hmono')

/-- C1: a `turn_off` call on a running relay before `min_run_time` seconds
have elapsed returns `False` and leaves the state (`is_on`, output pin,
`last_state_change`) untouched; a `turn_on` call on a stopped relay before
`min_off_time` seconds likewise; and along any monotone sequence of
`turn_on`/`turn_off` calls the output transitions alternate with every
off→on gap at least `min_off_time` and every on→off gap at least
`min_run_time`.  Rejected requests are not queued: the controller state is
the entire state, and a rejection returns it unchanged. -/
theorem C1_relay_debounce_invariant :
    (∀ (s : RelayState) (now : ℕ), s.is_on = true →
        s.time_since_change now < s.min_run_time →
        s.turn_off now = (false, s)) ∧
    (∀ (s : RelayState) (now : ℕ), s.is_on = false →
        s.time_since_change now < s.min_off_time →
        s.turn_on now = (false, s)) ∧
    (∀ (s : RelayState) (cs : List (RelayCmd × ℕ)),
        s.is_on = s.output →
        timesMono s.last_state_change cs = true →
        gapsOK s.min_run_time s.min_off_time s.output s.last_state_change
          (relayTransitions s cs)) := by
  refine ⟨?_, ?_, fun s cs h1 h2 => relay_gapsOK cs s h1 h2⟩
  · intro s now hon hlt
    simp [RelayState.turn_off, hon, hlt]
  · intro s now hoff hlt
    simp [RelayState.turn_on, hoff, hlt]


/-- One second after the last transition the 30 s minimum run time has not
elapsed. -/
lemma relayOnState_early : relayOnState.time_since_change 1000 <
    relayOnState.min_run_time := by
  norm_num [RelayState.time_since_change, relayOnState]

/-- One second after boot the 5 s minimum off time has not elapsed. -/
lemma relayOffState_early : (RelayState.make 0 30 5).time_since_change 1000 <
    (RelayState.make 0 30 5).min_off_time := by
  norm_num [RelayState.time_since_change, RelayState.make]

theorem C1_relay_debounce_invariant_witness :
    relayOnState.is_on = true ∧
    relayOnState.time_since_change 1000 < relayOnState.min_run_time ∧
    relayOnState.turn_off 1000 = (false, relayOnState) ∧
    (RelayState.make 0 30 5).is_on = false ∧
    (RelayState.make 0 30 5).time_since_change 1000 <
      (RelayState.make 0 30 5).min_off_time ∧
    (RelayState.make 0 30 5).turn_on 1000 = (false, RelayState.make 0 30 5) ∧
    (RelayState.make 0 30 5).is_on = (RelayState.make 0 30 5).output ∧
    timesMono (RelayState.make 0 30 5).last_state_change
      [(RelayCmd.turnOn, 6000), (RelayCmd.turnOff, 40000)] = true ∧
    gapsOK (RelayState.make 0 30 5).min_run_time
      (RelayState.make 0 30 5).min_off_time
      (RelayState.make 0 30 5).output
      (RelayState.make 0 30 5).last_state_change
      (relayTransitions (RelayState.make 0 30 5)
        [(RelayCmd.turnOn, 6000), (RelayCmd.turnOff, 40000)]) :=
  ⟨rfl, relayOnState_early,
    C1_relay_debounce_invariant.1 relayOnState 1000 rfl relayOnState_early,
    rfl, relayOffState_early,
    C1_relay_debounce_invariant.2.1 (RelayState.make 0 30 5) 1000 rfl
      relayOffState_early,
    rfl, by decide,
    C1_relay_debounce_invariant.2.2 (RelayState.make 0 30 5)
      [(RelayCmd.turnOn, 6000), (RelayCmd.turnOff, 40000)] rfl (by decide)⟩

/-- The relay command an AC tick issues depends only on the comparison of
the reading against the dead band. -/
lemma acCmdEq (m : ThresholdState) (t T s : ℚ) (now : ℕ) :
    cmdIssued (ACMonitor.run m (some t) T s now) =
      if t > T + s then some true
      else if t < T - s then some false
      else none := by
  simp only [ACMonitor.run, cmdIssued]
  by_cases h1 : t > T + s
  · simp only [if_pos h1]
    by_cases hr : (m.relay.turn_on now).1 <;>
      by_cases hn : truthy m.last_notified_state <;>
      simp [hr, hn]
  · by_cases h2 : t < T - s
    · simp only [if_neg h1, if_pos h2]
      by_cases hr : (m.relay.turn_off now).1 <;>
        by_cases hn : truthy m.last_notified_state <;>
        simp [hr, hn]
    · simp [if_neg h1, if_neg h2]

/-- The relay command a heater tick issues, mirrored. -/
lemma heaterCmdEq (m : ThresholdState) (t T s : ℚ) (now : ℕ) :
    cmdIssued (HeaterMonitor.run m (some t) T s now) =
      if t < T - s then some true
      else if t > T + s then some false
      else none := by
  simp only [HeaterMonitor.run, cmdIssued]
  by_cases h1 : t < T - s
  · simp only [if_pos h1]
    by_cases hr : (m.relay.turn_on now).1 <;>
      by_cases hn : truthy m.last_notified_state <;>
      simp [hr, hn]
  · by_cases h2 : t > T + s
    · simp only [if_neg h1, if_pos h2]
      by_cases hr : (m.relay.turn_off now).1 <;>
        by_cases hn : truthy m.last_notified_state <;>
        simp [hr, hn]
    · simp [if_neg h1, if_neg h2]

/-- C2: for every reading `t`, target `T` and (nonnegative) swing `s`, an AC
tick commands `turn_on` exactly when `t > T + s`, commands `turn_off`
exactly when `t < T - s`, and issues no relay command inside the dead band
`T - s ≤ t ≤ T + s`; the heater tick is the mirror image.  With target 75
and swing 1: a reading of 75.5 changes nothing, 76.1 commands AC on, 74.5
with the AC running holds it on, and 73.9 commands AC off. -/
theorem C2_hysteresis_dead_band (T s : ℚ) (hs : 0 ≤ s) :
    (∀ (m : ThresholdState) (t : ℚ) (now : ℕ),
        (cmdIssued (ACMonitor.run m (some t) T s now) = some true ↔
          t > T + s) ∧
        (cmdIssued (ACMonitor.run m (some t) T s now) = some false ↔
          t < T - s) ∧
        (cmdIssued (ACMonitor.run m (some t) T s now) = none ↔
          T - s ≤ t ∧ t ≤ T + s)) ∧
    (∀ (m : ThresholdState) (t : ℚ) (now : ℕ),
        (cmdIssued (HeaterMonitor.run m (some t) T s now) = some true ↔
          t < T - s) ∧
        (cmdIssued (HeaterMonitor.run m (some t) T s now) = some false ↔
          t > T + s) ∧
        (cmdIssued (HeaterMonitor.run m (some t) T s now) = none ↔
          T - s ≤ t ∧ t ≤ T + s)) ∧
    (∀ (m : ThresholdState) (now : ℕ),
        ACMonitor.run m (some 75.5) 75 1 now = (m, [], none) ∧
        cmdIssued (ACMonitor.run m (some 76.1) 75 1 now) = some true ∧
        (m.relay.is_on = true →
          (ACMonitor.run m (some 74.5) 75 1 now).1.relay.is_on = true) ∧
        cmdIssued (ACMonitor.run m (some 73.9) 75 1 now) = some false) := by
  refine ⟨?_, ?_, ?_⟩
  · intro m t now
    rw [acCmdEq]
    by_cases h1 : t > T + s
    · refine ⟨by simp [h1], ?_, ?_⟩
      · simp only [if_pos h1]
        constructor
        · intro h; exact absurd h (by simp)
        · intro h; exfalso; linarith
      · simp only [if_pos h1]
        constructor
        · intro h; exact absurd h (by simp)
        · rintro ⟨_, h⟩; exfalso; linarith
    · by_cases h2 : t < T - s
      · refine ⟨?_, by simp [h1, h2], ?_⟩
        · simp only [if_neg h1, if_pos h2]
          constructor
          · intro h; exact absurd h (by simp)
          · intro h; exfalso; linarith
        · simp only [if_neg h1, if_pos h2]
          constructor
          · intro h; exact absurd h (by simp)
          · rintro ⟨h, _⟩; exfalso; linarith
      · refine ⟨by simp [h1, h2], by simp [h1, h2], ?_⟩
        simp only [if_neg h1, if_neg h2]
        constructor
        · intro _; exact ⟨by linarith, by linarith⟩
        · intro _; trivial
  · intro m t now
    rw [heaterCmdEq]
    by_cases h1 : t < T - s
    · refine ⟨by simp [h1], ?_, ?_⟩
      · simp only [if_pos h1]
        constructor
        · intro h; exact absurd h (by simp)
        · intro h; exfalso; linarith
      · simp only [if_pos h1]
        constructor
        · intro h; exact absurd h (by simp)
        · rintro ⟨h, _⟩; exfalso; linarith
    · by_cases h2 : t > T + s
      · refine ⟨?_, by simp [h1, h2], ?_⟩
        · simp only [if_neg h1, if_pos h2]
          constructor
          · intro h; exact absurd h (by simp)
          · intro h; exfalso; linarith
        · simp only [if_neg h1, if_pos h2]
          constructor
          · intro h; exact absurd h (by simp)
          · rintro ⟨_, h⟩; exfalso; linarith
      · refine ⟨by simp [h1, h2], by simp [h1, h2], ?_⟩
        simp only [if_neg h1, if_neg h2]
        constructor
        · intro _; exact ⟨by linarith, by linarith⟩
        · intro _; trivial
  · intro m now
    refine ⟨?_, ?_, ?_, ?_⟩
    · norm_num [ACMonitor.run]
    · rw [acCmdEq]; norm_num
    · intro hon
      have h : ACMonitor.run m (some 74.5) 75 1 now = (m, [], none) := by
        norm_num [ACMonitor.run]
      rw [h]; exact hon
    · rw [acCmdEq]; norm_num


theorem C2_hysteresis_dead_band_witness :
    (0 : ℚ) ≤ 1 ∧
    acOnMonitor.relay.is_on = true ∧
    (ACMonitor.run acOnMonitor (some 74.5) 75 1 5000).1.relay.is_on = true :=
  ⟨by decide, rfl,
    ((C2_hysteresis_dead_band 75 1 (by decide)).2.2 acOnMonitor 5000).2.2.1 rfl⟩

/-- A `turn_on` call that returns `False` is a debounce rejection and leaves
the controller untouched. -/
lemma RelayState.turn_on_rejected {s : RelayState} {now : ℕ}
    (h : (s.turn_on now).1 = false) : s.turn_on now = (false, s) := by
  by_cases hon : s.is_on
  · simp [RelayState.turn_on, hon] at h
  · by_cases hrej : s.time_since_change now < s.min_off_time
    · simp [RelayState.turn_on, hon, hrej]
    · simp [RelayState.turn_on, hon, hrej] at h

/-- A `turn_off` call that returns `False` is a debounce rejection and leaves
the controller untouched. -/
lemma RelayState.turn_off_rejected {s : RelayState} {now : ℕ}
    (h : (s.turn_off now).1 = false) : s.turn_off now = (false, s) := by
  by_cases hon : s.is_on
  · by_cases hrej : s.time_since_change now < s.min_run_time
    · simp [RelayState.turn_off, hon, hrej]
    · simp [RelayState.turn_off, hon, hrej] at h
  · simp [RelayState.turn_off, hon] at h

/-- Truthiness computes on literals. -/
lemma truthy_some (b : Bool) : truthy (some b) = b := rfl

/-- Truthiness of `None` is false. -/
lemma truthy_none : truthy none = false := rfl


/-- One AC tick from an invariant state: the invariant is preserved, the
tick notifies exactly the transitions of the output pin, and a tick whose
relay command was rejected changes nothing at all. -/
lemma acRunStep (m : ThresholdState) (reading : Option ℚ)
    (T s : ℚ) (now : ℕ) (h : monInv m) :
    monInv (ACMonitor.run m reading T s now).1 ∧
    ((ACMonitor.run m reading T s now).2.1 =
      if (ACMonitor.run m reading T s now).1.relay.output = m.relay.output
      then [] else [(ACMonitor.run m reading T s now).1.relay.output]) ∧
    (∀ c : Bool, (ACMonitor.run m reading T s now).2.2 = some (c, false) →
      (ACMonitor.run m reading T s now).1 = m ∧
      (ACMonitor.run m reading T s now).2.1 = []) := by
  obtain ⟨h1, h2⟩ := h
  match reading with
  | none => simp [ACMonitor.run, monInv, h1, h2]
  | some t =>
    by_cases hc1 : t > T + s
    · by_cases hon : m.relay.is_on
      · have hr : m.relay.turn_on now = (true, m.relay) := by
          simp [RelayState.turn_on, hon]
        have hout : m.relay.output = true := by rw [← h1]; exact hon
        simp [ACMonitor.run, hc1, hr, monInv, h1, h2, hout]
      · by_cases hrej : m.relay.time_since_change now < m.relay.min_off_time
        · have hr : m.relay.turn_on now = (false, m.relay) := by
            simp [RelayState.turn_on, hon, hrej]
          simp [ACMonitor.run, hc1, hr, monInv, h1, h2]
        · have hr : m.relay.turn_on now =
              (true, { m.relay with
                       output := true, is_on := true, last_state_change := now }) := by
            simp [RelayState.turn_on, hon, hrej]
          have hout : m.relay.output = false := by
            rw [← h1]; simpa using hon
          have hlns : truthy m.last_notified_state = false := by rw [h2, hout]
          simp [ACMonitor.run, hc1, hr, monInv, hout, hlns, truthy_some]
    · by_cases hc2 : t < T - s
      · by_cases hon : m.relay.is_on
        · by_cases hrej : m.relay.time_since_change now < m.relay.min_run_time
          · have hr : m.relay.turn_off now = (false, m.relay) := by
              simp [RelayState.turn_off, hon, hrej]
            simp [ACMonitor.run, hc1, hc2, hr, monInv, h1, h2]
          · have hr : m.relay.turn_off now =
                (true, { m.relay with
                         output := false, is_on := false, last_state_change := now }) := by
              simp [RelayState.turn_off, hon, hrej]
            have hout : m.relay.output = true := by rw [← h1]; exact hon
            have hlns : truthy m.last_notified_state = true := by rw [h2, hout]
            simp [ACMonitor.run, hc1, hc2, hr, monInv, hout, hlns, truthy_some]
        · have hr : m.relay.turn_off now = (true, m.relay) := by
            simp [RelayState.turn_off, hon]
          have hout : m.relay.output = false := by
            rw [← h1]; simpa using hon
          simp [ACMonitor.run, hc1, hc2, hr, monInv, h1, h2, hout]
      · simp [ACMonitor.run, hc1, hc2, monInv, h1, h2]

/-- One heater tick from an invariant state, mirrored. -/
lemma heaterRunStep (m : ThresholdState) (reading : Option ℚ)
    (T s : ℚ) (now : ℕ) (h : monInv m) :
    monInv (HeaterMonitor.run m reading T s now).1 ∧
    ((HeaterMonitor.run m reading T s now).2.1 =
      if (HeaterMonitor.run m reading T s now).1.relay.output = m.relay.output
      then [] else [(HeaterMonitor.run m reading T s now).1.relay.output]) ∧
    (∀ c : Bool, (HeaterMonitor.run m reading T s now).2.2 = some (c, false) →
      (HeaterMonitor.run m reading T s now).1 = m ∧
      (HeaterMonitor.run m reading T s now).2.1 = []) := by
  obtain ⟨h1, h2⟩ := h
  match reading with
  | none => simp [HeaterMonitor.run, monInv, h1, h2]
  | some t =>
    by_cases hc1 : t < T - s
    · by_cases hon : m.relay.is_on
      · have hr : m.relay.turn_on now = (true, m.relay) := by
          simp [RelayState.turn_on, hon]
        have hout : m.relay.output = true := by rw [← h1]; exact hon
        simp [HeaterMonitor.run, hc1, hr, monInv, h1, h2, hout]
      · by_cases hrej : m.relay.time_since_change now < m.relay.min_off_time
        · have hr : m.relay.turn_on now = (false, m.relay) := by
            simp [RelayState.turn_on, hon, hrej]
          simp [HeaterMonitor.run, hc1, hr, monInv, h1, h2]
        · have hr : m.relay.turn_on now =
              (true, { m.relay with
                       output := true, is_on := true, last_state_change := now }) := by
            simp [RelayState.turn_on, hon, hrej]
          have hout : m.relay.output = false := by
            rw [← h1]; simpa using hon
          have hlns : truthy m.last_notified_state = false := by rw [h2, hout]
          simp [HeaterMonitor.run, hc1, hr, monInv, hout, hlns, truthy_some]
    · by_cases hc2 : t > T + s
      · by_cases hon : m.relay.is_on
        · by_cases hrej : m.relay.time_since_change now < m.relay.min_run_time
          · have hr : m.relay.turn_off now = (false, m.relay) := by
              simp [RelayState.turn_off, hon, hrej]
            simp [HeaterMonitor.run, hc1, hc2, hr, monInv, h1, h2]
          · have hr : m.relay.turn_off now =
                (true, { m.relay with
                         output := false, is_on := false, last_state_change := now }) := by
              simp [RelayState.turn_off, hon, hrej]
            have hout : m.relay.output = true := by rw [← h1]; exact hon
            have hlns : truthy m.last_notified_state = true := by rw [h2, hout]
            simp [HeaterMonitor.run, hc1, hc2, hr, monInv, hout, hlns, truthy_some]
        · have hr : m.relay.turn_off now = (true, m.relay) := by
            simp [RelayState.turn_off, hon]
          have hout : m.relay.output = false := by
            rw [← h1]; simpa using hon
          simp [HeaterMonitor.run, hc1, hc2, hr, monInv, h1, h2, hout]
      · simp [HeaterMonitor.run, hc1, hc2, monInv, h1, h2]

/-- The invariant holds in every state an AC monitor reaches from its
construction. -/
lemma acRunTraceInv (trace : List (Option ℚ × ℚ × ℚ × ℕ)) :
    ∀ m : ThresholdState, monInv m → monInv (ACMonitor.runTrace m trace) := by
  induction trace with
  | nil => intro m h; exact h
  | cons e rest ih =>
    obtain ⟨r, T, s, now⟩ := e
    intro m h
    exact ih _ (acRunStep m r T s now h).1

/-- The invariant holds in every state a heater monitor reaches from its
construction. -/
lemma heaterRunTraceInv (trace : List (Option ℚ × ℚ × ℚ × ℕ)) :
    ∀ m : ThresholdState, monInv m → monInv (HeaterMonitor.runTrace m trace) := by
  induction trace with
  | nil => intro m h; exact h
  | cons e rest ih =>
    obtain ⟨r, T, s, now⟩ := e
    intro m h
    exact ih _ (heaterRunStep m r T s now h).1

/-- A freshly constructed monitor satisfies the invariant. -/
lemma monInv_make (t0 : ℕ) (minRun minOff : ℚ) :
    monInv (ThresholdState.make t0 minRun minOff) := by
  simp [monInv, ThresholdState.make, RelayState.make, truthy]

/-- C7: along any sequence of AC (resp. heater) monitor ticks from a fresh
monitor, a tick emits a notification exactly when the relay output pin
transitions during that tick (announcing the new state), never merely per
tick; and a tick whose relay command was rejected by the debounce gate sends
no notification and leaves the whole monitor state — `last_notified_state`
included — unchanged. -/
theorem C7_notify_once_per_transition (t0 : ℕ) (minRun minOff : ℚ)
    (trace : List (Option ℚ × ℚ × ℚ × ℕ)) (reading : Option ℚ)
    (T s : ℚ) (now : ℕ) :
    (((ACMonitor.run (ACMonitor.runTrace (ThresholdState.make t0 minRun minOff)
          trace) reading T s now).2.1 =
        if (ACMonitor.run (ACMonitor.runTrace (ThresholdState.make t0 minRun
              minOff) trace) reading T s now).1.relay.output =
            (ACMonitor.runTrace (ThresholdState.make t0 minRun minOff)
              trace).relay.output
        then []
        else [(ACMonitor.run (ACMonitor.runTrace (ThresholdState.make t0 minRun
              minOff) trace) reading T s now).1.relay.output]) ∧
      ∀ c : Bool,
        (ACMonitor.run (ACMonitor.runTrace (ThresholdState.make t0 minRun
            minOff) trace) reading T s now).2.2 = some (c, false) →
        (ACMonitor.run (ACMonitor.runTrace (ThresholdState.make t0 minRun
            minOff) trace) reading T s now).1 =
          ACMonitor.runTrace (ThresholdState.make t0 minRun minOff) trace ∧
        (ACMonitor.run (ACMonitor.runTrace (ThresholdState.make t0 minRun
            minOff) trace) reading T s now).2.1 = []) ∧
    (((HeaterMonitor.run (HeaterMonitor.runTrace (ThresholdState.make t0 minRun
          minOff) trace) reading T s now).2.1 =
        if (HeaterMonitor.run (HeaterMonitor.runTrace (ThresholdState.make t0
              minRun minOff) trace) reading T s now).1.relay.output =
            (HeaterMonitor.runTrace (ThresholdState.make t0 minRun minOff)
              trace).relay.output
        then []
        else [(HeaterMonitor.run (HeaterMonitor.runTrace (ThresholdState.make t0
              minRun minOff) trace) reading T s now).1.relay.output]) ∧
      ∀ c : Bool,
        (HeaterMonitor.run (HeaterMonitor.runTrace (ThresholdState.make t0
            minRun minOff) trace) reading T s now).2.2 = some (c, false) →
        (HeaterMonitor.run (HeaterMonitor.runTrace (ThresholdState.make t0
            minRun minOff) trace) reading T s now).1 =
          HeaterMonitor.runTrace (ThresholdState.make t0 minRun minOff) trace ∧
        (HeaterMonitor.run (HeaterMonitor.runTrace (ThresholdState.make t0
            minRun minOff) trace) reading T s now).2.1 = []) := by
  have hA := acRunStep
    (ACMonitor.runTrace (ThresholdState.make t0 minRun minOff) trace)
    reading T s now
    (acRunTraceInv trace _ (monInv_make t0 minRun minOff))
  have hH := heaterRunStep
    (HeaterMonitor.runTrace (ThresholdState.make t0 minRun minOff) trace)
    reading T s now
    (heaterRunTraceInv trace _ (monInv_make t0 minRun minOff))
  exact ⟨⟨hA.2.1, hA.2.2⟩, ⟨hH.2.1, hH.2.2⟩⟩

/-- Rejection of an AC turn-on one second after boot with a 5 s minimum
off time: the witness instance for the rejection clause of C7. -/
lemma acRejectedTickFact :
    (ACMonitor.run (ACMonitor.runTrace (ThresholdState.make 0 30 5) [])
      (some 100) 75 1 1000).2.2 = some (true, false) := by
  norm_num [ACMonitor.runTrace, ACMonitor.run, RelayState.turn_on,
    RelayState.time_since_change, ThresholdState.make, RelayState.make]

/-- Rejection of a heater turn-on one second after boot, the mirrored
witness instance. -/
lemma heaterRejectedTickFact :
    (HeaterMonitor.run (HeaterMonitor.runTrace (ThresholdState.make 0 30 5) [])
      (some 10) 75 1 1000).2.2 = some (true, false) := by
  norm_num [HeaterMonitor.runTrace, HeaterMonitor.run, RelayState.turn_on,
    RelayState.time_since_change, ThresholdState.make, RelayState.make]

theorem C7_notify_once_per_transition_witness :
    (ACMonitor.run (ACMonitor.runTrace (ThresholdState.make 0 30 5) [])
        (some 100) 75 1 1000).2.2 = some (true, false) ∧
    (ACMonitor.run (ACMonitor.runTrace (ThresholdState.make 0 30 5) [])
        (some 100) 75 1 1000).1 =
      ACMonitor.runTrace (ThresholdState.make 0 30 5) [] ∧
    (ACMonitor.run (ACMonitor.runTrace (ThresholdState.make 0 30 5) [])
        (some 100) 75 1 1000).2.1 = [] ∧
    (HeaterMonitor.run (HeaterMonitor.runTrace (ThresholdState.make 0 30 5) [])
        (some 10) 75 1 1000).2.2 = some (true, false) ∧
    (HeaterMonitor.run (HeaterMonitor.runTrace (ThresholdState.make 0 30 5) [])
        (some 10) 75 1 1000).1 =
      HeaterMonitor.runTrace (ThresholdState.make 0 30 5) [] ∧
    (HeaterMonitor.run (HeaterMonitor.runTrace (ThresholdState.make 0 30 5) [])
        (some 10) 75 1 1000).2.1 = [] :=
  ⟨acRejectedTickFact,
    ((C7_notify_once_per_transition 0 30 5 [] (some 100) 75 1 1000).1.2 true
      acRejectedTickFact).1,
    ((C7_notify_once_per_transition 0 30 5 [] (some 100) 75 1 1000).1.2 true
      acRejectedTickFact).2,
    heaterRejectedTickFact,
    ((C7_notify_once_per_transition 0 30 5 [] (some 10) 75 1 1000).2.2 true
      heaterRejectedTickFact).1,
    ((C7_notify_once_per_transition 0 30 5 [] (some 10) 75 1 1000).2.2 true
      heaterRejectedTickFact).2⟩


/-- On a list sorted by minutes, the source's walk-with-break loop computes
exactly the spec's "last entry whose minutes ≤ current", falling back to the
accumulator when no entry qualifies. -/
lemma walkActive_eq_lastLE (current : ℤ) :
    ∀ (l : List (ℤ × Schedule)) (acc : Option Schedule),
      l.Pairwise scheduleKeyLE →
      ScheduleMonitor.walkActive current l acc =
        (match lastLE current l with
         | some p => some p.2
         | none => acc) := by
  intro l
  induction l with
  | nil => intro acc _; rfl
  | cons p rest ih =>
    intro acc hp
    obtain ⟨hhead, htail⟩ := List.pairwise_cons.mp hp
    by_cases hc : current ≥ p.1
    · have hfilter : (p :: rest).filter (fun q => decide (q.1 ≤ current)) =
          p :: rest.filter (fun q => decide (q.1 ≤ current)) := by
        simp [List.filter_cons, hc]
      rw [show ScheduleMonitor.walkActive current (p :: rest) acc =
            ScheduleMonitor.walkActive current rest (some p.2) by
          simp [ScheduleMonitor.walkActive, hc]]
      rw [ih (some p.2) htail]
      simp only [lastLE, hfilter]
      cases hq : (rest.filter fun q => decide (q.1 ≤ current)).getLast? with
      | none =>
        have hnil : (rest.filter fun q => decide (q.1 ≤ current)) = [] :=
          List.getLast?_eq_none_iff.mp hq
        simp [lastLE, hnil, hq]
      | some y =>
        have hlast : (p :: rest.filter fun q => decide (q.1 ≤ current)).getLast? =
            some y := by
          cases hr : (rest.filter fun q => decide (q.1 ≤ current)) with
          | nil => simp [hr] at hq
          | cons a l =>
            rw [hr] at hq
            rw [List.getLast?_cons_cons]
            exact hq
        simp [lastLE, hq, hlast]
    · have hnone : lastLE current (p :: rest) = none := by
        have h1 : ¬ (decide (p.1 ≤ current) = true) := by
          simp only [decide_eq_true_eq]
          omega
        have h2 : rest.filter (fun q => decide (q.1 ≤ current)) = [] := by
          rw [List.filter_eq_nil_iff]
          intro a ha
          have := hhead a ha
          simp only [scheduleKeyLE] at this
          simp only [decide_eq_true_eq]
          omega
        simp [lastLE, List.filter_cons, h1, h2]
      simp [ScheduleMonitor.walkActive, hc, hnone]

/-- C3: active-schedule resolution returns `none` whenever schedules are
disabled (hold mode); otherwise the unparseable entries are discarded, the
rest are sorted ascending by minutes-since-midnight, and the result is the
last entry whose minutes do not exceed the current minutes, wrapping to the
last entry of the sorted list when none qualifies (and `none` when nothing
parseable remains).  With the default 06:00/12:00/18:00/22:00 schedules at
02:00 (minute 120) the 22:00 entry is active. -/
theorem C3_active_schedule_resolution :
    (∀ (cfg : Config) (cur : ℤ), cfg.schedule_enabled.getD false = false →
        ScheduleMonitor.find_active_schedule cfg cur = none) ∧
    (∀ cfg : Config, (ScheduleMonitor.sortedKeyed cfg).Pairwise scheduleKeyLE) ∧
    (∀ (cfg : Config) (cur : ℤ), cfg.schedule_enabled.getD false = true →
        ScheduleMonitor.find_active_schedule cfg cur =
          (match lastLE cur (ScheduleMonitor.sortedKeyed cfg) with
           | some p => some p.2
           | none =>
             (ScheduleMonitor.sortedKeyed cfg).getLast?.map Prod.snd)) ∧
    ScheduleMonitor.find_active_schedule defaultConfig 120 =
      some { time := "22:00".data, name := "Night".data,
             ac_target := some 75, heater_target := some 72 } := by
  refine ⟨?_, ?_, ?_, by decide⟩
  · intro cfg cur h
    simp [ScheduleMonitor.find_active_schedule, h]
  · intro cfg
    exact List.sorted_insertionSort scheduleKeyLE _
  · intro cfg cur h
    by_cases hnil : cfg.schedules.getD [] = []
    · have hkeyed : ScheduleMonitor.sortedKeyed cfg = [] := by
        simp [ScheduleMonitor.sortedKeyed, hnil, List.insertionSort]
      simp [ScheduleMonitor.find_active_schedule, h, hnil, hkeyed, lastLE]
    · have hsorted : (ScheduleMonitor.sortedKeyed cfg).Pairwise scheduleKeyLE :=
        List.sorted_insertionSort scheduleKeyLE _
      have hwalk := walkActive_eq_lastLE cur (ScheduleMonitor.sortedKeyed cfg)
        none hsorted
      simp only [ScheduleMonitor.find_active_schedule, h, hnil]
      rw [hwalk]
      cases hq : lastLE cur (ScheduleMonitor.sortedKeyed cfg) with
      | none => simp
      | some p => simp


theorem C3_active_schedule_resolution_witness :
    disabledConfig.schedule_enabled.getD false = false ∧
    ScheduleMonitor.find_active_schedule disabledConfig 120 = none ∧
    defaultConfig.schedule_enabled.getD false = true ∧
    ScheduleMonitor.find_active_schedule defaultConfig 120 =
      (match lastLE 120 (ScheduleMonitor.sortedKeyed defaultConfig) with
       | some p => some p.2
       | none =>
         (ScheduleMonitor.sortedKeyed defaultConfig).getLast?.map Prod.snd) :=
  ⟨rfl,
    C3_active_schedule_resolution.1 disabledConfig 120 rfl,
    rfl,
    C3_active_schedule_resolution.2.2.1 defaultConfig 120 rfl⟩

/-- Applying a schedule never touches the mode flags
(`schedule_enabled`, `temp_hold_start_time`, `permanent_hold`). -/
lemma apply_schedule_preserves_flags (st : EngineState) (sch : Schedule) :
    (ScheduleMonitor.apply_schedule st (some sch)).1.config.schedule_enabled =
      st.config.schedule_enabled ∧
    (ScheduleMonitor.apply_schedule st (some sch)).1.config.temp_hold_start_time =
      st.config.temp_hold_start_time ∧
    (ScheduleMonitor.apply_schedule st (some sch)).1.config.permanent_hold =
      st.config.permanent_hold := by
  by_cases hid : st.last_applied_schedule = some (sch.time ++ sch.name)
  · simp [ScheduleMonitor.apply_schedule, hid]
  · simp only [ScheduleMonitor.apply_schedule, if_neg hid]
    cases sch.ac_target <;> cases sch.ac_swing <;>
      cases sch.heater_target <;> cases sch.heater_swing <;> simp

/-- Applying a fresh schedule writes its provided targets into the monitor
fields and records its identity. -/
lemma apply_schedule_sets_targets (st : EngineState) (sch : Schedule)
    (hid : ¬ st.last_applied_schedule = some (sch.time ++ sch.name)) :
    (∀ v, sch.ac_target = some v →
      (ScheduleMonitor.apply_schedule st (some sch)).1.ac_target_mon = v) ∧
    (∀ v, sch.heater_target = some v →
      (ScheduleMonitor.apply_schedule st (some sch)).1.heater_target_mon = v) ∧
    (ScheduleMonitor.apply_schedule st (some sch)).1.last_applied_schedule =
      some (sch.time ++ sch.name) := by
  simp only [ScheduleMonitor.apply_schedule, if_neg hid]
  cases hA : sch.ac_target <;> cases hS : sch.ac_swing <;>
    cases hH : sch.heater_target <;> cases hW : sch.heater_swing <;>
    simp_all

/-- C4: a tick of the schedule engine in a temporary hold (schedules
disabled, permanent hold clear, start time recorded) leaves everything
unchanged while the elapsed time is below the hold duration; once the
elapsed time reaches the duration, the tick re-enables schedules, clears
the start time, persists and notifies, and then re-resolves the active
schedule against the resumed config and applies it (writing its targets
into the monitors and recording its identity; `last_applied_schedule` is
`None` whenever a hold was entered, since every hold entry path calls
`reload_config`). -/
theorem C4_temporary_hold_expiry (st : EngineState) (t0 D now : ℚ) (cur : ℤ)
    (hEn : st.config.schedule_enabled.getD false = false)
    (hPerm : st.config.permanent_hold.getD false = false)
    (hStart : st.config.temp_hold_start_time.getD none = some t0)
    (hDur : st.temp_hold_duration = D) :
    (now - t0 < D → ScheduleMonitor.run st now cur = (st, [])) ∧
    (now - t0 ≥ D →
      (ScheduleMonitor.run st now cur).1.config.schedule_enabled = some true ∧
      (ScheduleMonitor.run st now cur).1.config.temp_hold_start_time =
        some none ∧
      (∃ evs : List Event,
        (ScheduleMonitor.run st now cur).2 =
          [Event.persist, Event.notify] ++ evs) ∧
      (st.last_applied_schedule = none →
        ∀ sch : Schedule,
          ScheduleMonitor.find_active_schedule (resumeFlags st.config) cur =
            some sch →
          (∀ v, sch.ac_target = some v →
            (ScheduleMonitor.run st now cur).1.ac_target_mon = v) ∧
          (∀ v, sch.heater_target = some v →
            (ScheduleMonitor.run st now cur).1.heater_target_mon = v) ∧
          (ScheduleMonitor.run st now cur).1.last_applied_schedule =
            some (sch.time ++ sch.name))) := by
  constructor
  · intro hlt
    have hcond : ¬ (now - t0 ≥ st.temp_hold_duration) := by
      rw [hDur]; exact not_le.mpr hlt
    have hfind : ScheduleMonitor.find_active_schedule st.config cur = none := by
      simp [ScheduleMonitor.find_active_schedule, hEn]
    simp [ScheduleMonitor.run, hEn, hPerm, hStart, hcond, hfind]
  · intro hge
    have hcond : now - t0 ≥ st.temp_hold_duration := by rw [hDur]; exact hge
    have hrun : ScheduleMonitor.run st now cur =
        (match ScheduleMonitor.find_active_schedule (resumeFlags st.config)
            cur with
         | some sch =>
           ((ScheduleMonitor.apply_schedule
              { st with config := resumeFlags st.config } (some sch)).1,
            [Event.persist, Event.notify] ++
              (ScheduleMonitor.apply_schedule
                { st with config := resumeFlags st.config } (some sch)).2)
         | none =>
           ({ st with config := resumeFlags st.config },
            [Event.persist, Event.notify])) := by
      simp [ScheduleMonitor.run, hEn, hPerm, hStart, hcond]
    cases hfind : ScheduleMonitor.find_active_schedule (resumeFlags st.config)
        cur with
    | none =>
      rw [hrun, hfind]
      refine ⟨by simp [resumeFlags], by simp [resumeFlags], ⟨[], by simp⟩, ?_⟩
      intro _ sch hsch
      simp [hfind] at hsch
    | some sch =>
      rw [hrun, hfind]
      have hflags := apply_schedule_preserves_flags
        { st with config := resumeFlags st.config } sch
      refine ⟨?_, ?_, ⟨(ScheduleMonitor.apply_schedule
          { st with config := resumeFlags st.config } (some sch)).2, rfl⟩, ?_⟩
      · rw [hflags.1]; simp [resumeFlags]
      · rw [hflags.2.1]; simp [resumeFlags]
      · intro hla sch' hsch'
        obtain rfl : sch = sch' := by
          simpa using hsch'
        have hid : ¬ ({ st with config := resumeFlags st.config } :
            EngineState).last_applied_schedule = some (sch.time ++ sch.name) := by
          simp [hla]
        exact apply_schedule_sets_targets _ sch hid


theorem C4_temporary_hold_expiry_witness :
    holdEngineState.config.schedule_enabled.getD false = false ∧
    holdEngineState.config.permanent_hold.getD false = false ∧
    holdEngineState.config.temp_hold_start_time.getD none = some 0 ∧
    holdEngineState.temp_hold_duration = 3600 ∧
    ((3599 : ℚ) - 0 < 3600) ∧
    ScheduleMonitor.run holdEngineState 3599 120 = (holdEngineState, []) ∧
    ((3601 : ℚ) - 0 ≥ 3600) ∧
    (ScheduleMonitor.run holdEngineState 3601 120).1.config.schedule_enabled =
      some true := by
  have h1 : (3599 : ℚ) - 0 < 3600 := by
    simp only [sub_zero]; decide
  have h2 : (3601 : ℚ) - 0 ≥ 3600 := by
    simp only [ge_iff_le, sub_zero]; decide
  have hthm := C4_temporary_hold_expiry holdEngineState 0 3600 3599 120
    rfl rfl rfl rfl
  have hthm2 := C4_temporary_hold_expiry holdEngineState 0 3600 3601 120
    rfl rfl rfl rfl
  exact ⟨rfl, rfl, rfl, rfl, h1, hthm.1 h1, h2, (hthm2.2 h2).1⟩





/-- C6 counterexample: the reset is guarded by `if 'schedule_enabled' in
config:` (and likewise for the other two keys), so a persisted `config.json`
that parses but lacks the mode keys — the JSON object `{}` — comes up with
`schedule_enabled` still absent: the mode is NOT reset to Automatic
(`config.get('schedule_enabled', False)` stays falsy), contradicting the
claim's "regardless of the persisted configuration's contents". -/
theorem C6_startup_reset_counterexample :
    (startupConfig (some {})).schedule_enabled ≠ some true ∧
    (startupConfig (some {})).schedule_enabled.getD false = false ∧
    (startupConfig (some {})).permanent_hold ≠ some false ∧
    (startupConfig (some {})).temp_hold_start_time ≠ some none := by
  decide

/-- Field-level description of the startup reset block: each mode key is
forced to its automatic value exactly when it is present. -/
lemma startupHoldReset_fields (cfg : Config) :
    (startupHoldReset cfg).schedule_enabled =
      (if cfg.schedule_enabled.isSome then some true
       else cfg.schedule_enabled) ∧
    (startupHoldReset cfg).permanent_hold =
      (if cfg.permanent_hold.isSome then some false
       else cfg.permanent_hold) ∧
    (startupHoldReset cfg).temp_hold_start_time =
      (if cfg.temp_hold_start_time.isSome then some none
       else cfg.temp_hold_start_time) := by
  cases cfg
  simp only [startupHoldReset]
  split_ifs <;> simp_all

/-- C6 (amended): on process start each of the three mode keys is reset to
its automatic-mode value precisely when the key is present in the loaded
config — in particular any persisted record that actually recorded a
permanent or temporary hold (those writes always store the keys) comes up in
Automatic with hold state cleared, as does the default config created when
the file is missing or corrupt; a key absent from the persisted record is
left absent. -/
theorem C6_startup_reset_amended (parsed : Option Config) :
    ((mainLoadConfig parsed).schedule_enabled.isSome = true →
      (startupConfig parsed).schedule_enabled = some true) ∧
    ((mainLoadConfig parsed).permanent_hold.isSome = true →
      (startupConfig parsed).permanent_hold = some false) ∧
    ((mainLoadConfig parsed).temp_hold_start_time.isSome = true →
      (startupConfig parsed).temp_hold_start_time = some none) ∧
    ((mainLoadConfig parsed).schedule_enabled.isSome = false →
      (startupConfig parsed).schedule_enabled =
        (mainLoadConfig parsed).schedule_enabled) ∧
    ((mainLoadConfig parsed).permanent_hold.isSome = false →
      (startupConfig parsed).permanent_hold =
        (mainLoadConfig parsed).permanent_hold) ∧
    ((mainLoadConfig parsed).temp_hold_start_time.isSome = false →
      (startupConfig parsed).temp_hold_start_time =
        (mainLoadConfig parsed).temp_hold_start_time) ∧
    (parsed = none →
      (startupConfig parsed).schedule_enabled = some true ∧
      (startupConfig parsed).permanent_hold = some false ∧
      (startupConfig parsed).temp_hold_start_time = some none) := by
  have hf := startupHoldReset_fields (mainLoadConfig parsed)
  simp only [startupConfig]
  refine ⟨?_, ?_, ?_, ?_, ?_, ?_, ?_⟩
  · intro h; rw [hf.1, if_pos h]
  · intro h; rw [hf.2.1, if_pos h]
  · intro h; rw [hf.2.2, if_pos h]
  · intro h; rw [hf.1, if_neg (by simp [h])]
  · intro h; rw [hf.2.1, if_neg (by simp [h])]
  · intro h; rw [hf.2.2, if_neg (by simp [h])]
  · rintro rfl
    refine ⟨?_, ?_, ?_⟩ <;>
      simp [startupHoldReset_fields, mainLoadConfig, defaultConfig,
        startupHoldReset]


theorem C6_startup_reset_amended_witness :
    (mainLoadConfig (some heldOverConfig)).schedule_enabled.isSome = true ∧
    (mainLoadConfig (some heldOverConfig)).permanent_hold.isSome = true ∧
    (mainLoadConfig (some heldOverConfig)).temp_hold_start_time.isSome = true ∧
    (startupConfig (some heldOverConfig)).schedule_enabled = some true ∧
    (startupConfig (some heldOverConfig)).permanent_hold = some false ∧
    (startupConfig (some heldOverConfig)).temp_hold_start_time = some none :=
  ⟨rfl, rfl, rfl,
    (C6_startup_reset_amended (some heldOverConfig)).1 rfl,
    (C6_startup_reset_amended (some heldOverConfig)).2.1 rfl,
    (C6_startup_reset_amended (some heldOverConfig)).2.2.1 rfl⟩

/-- After any application of a schedule its identity is the recorded one. -/
lemma apply_schedule_records_id (st : EngineState) (sch : Schedule) :
    (ScheduleMonitor.apply_schedule st (some sch)).1.last_applied_schedule =
      some (sch.time ++ sch.name) := by
  by_cases hid : st.last_applied_schedule = some (sch.time ++ sch.name)
  · simp [ScheduleMonitor.apply_schedule, hid]
  · simp [ScheduleMonitor.apply_schedule, hid]

/-- C8 counterexample to "exactly one persistence write": an engine whose
persisted config already holds the schedule's targets (exactly the startup
situation, where the active schedule was persisted before the reboot and
`last_applied_schedule` is `None`).  Applying the default Morning schedule
twice yields one notification but ZERO persistence writes — the first
application finds nothing changed (`if changed:` is false) yet still
notifies, and the second is a no-op. -/
theorem C8_idempotent_application_counterexample :
    (ScheduleMonitor.apply_schedule matchedEngineState
        (some morningSchedule)).2 = [Event.notify] ∧
    ScheduleMonitor.apply_schedule
        (ScheduleMonitor.apply_schedule matchedEngineState
          (some morningSchedule)).1 (some morningSchedule) =
      ((ScheduleMonitor.apply_schedule matchedEngineState
          (some morningSchedule)).1, []) ∧
    ((ScheduleMonitor.apply_schedule matchedEngineState
        (some morningSchedule)).2 ++
      (ScheduleMonitor.apply_schedule
        (ScheduleMonitor.apply_schedule matchedEngineState
          (some morningSchedule)).1 (some morningSchedule)).2).count
        Event.persist = 0 := by
  decide

/-- C8 (amended): re-application of a schedule whose identity (time + name)
equals `last_applied_schedule` is a complete no-op (no state change, no
persistence write, no notification); hence applying the same schedule twice
in a row produces — counting both applications — exactly one notification
and AT MOST one persistence write when the identity was fresh, with the
persistence write occurring exactly when some provided value differs from
the persisted config. -/
theorem C8_idempotent_application_amended :
    (∀ (st : EngineState) (sch : Schedule),
        st.last_applied_schedule = some (sch.time ++ sch.name) →
        ScheduleMonitor.apply_schedule st (some sch) = (st, [])) ∧
    (∀ (st : EngineState) (sch : Schedule),
        ScheduleMonitor.apply_schedule
            (ScheduleMonitor.apply_schedule st (some sch)).1 (some sch) =
          ((ScheduleMonitor.apply_schedule st (some sch)).1, [])) ∧
    (∀ (st : EngineState) (sch : Schedule),
        ¬ st.last_applied_schedule = some (sch.time ++ sch.name) →
        (ScheduleMonitor.apply_schedule st (some sch)).2.count Event.notify =
            1 ∧
          (ScheduleMonitor.apply_schedule st (some sch)).2.count Event.persist =
            (if ScheduleMonitor.applyChanged st sch then 1 else 0)) := by
  have hnoop : ∀ (st : EngineState) (sch : Schedule),
      st.last_applied_schedule = some (sch.time ++ sch.name) →
      ScheduleMonitor.apply_schedule st (some sch) = (st, []) := by
    intro st sch hid
    simp [ScheduleMonitor.apply_schedule, hid]
  refine ⟨hnoop, ?_, ?_⟩
  · intro st sch
    exact hnoop _ sch (apply_schedule_records_id st sch)
  · intro st sch hid
    simp only [ScheduleMonitor.apply_schedule, if_neg hid]
    by_cases hch : ScheduleMonitor.applyChanged st sch <;>
      simp [hch, List.count_cons, List.count_append]

theorem C8_idempotent_application_amended_witness :
    freshEngineState.last_applied_schedule ≠
      some (morningSchedule.time ++ morningSchedule.name) ∧
    (ScheduleMonitor.apply_schedule freshEngineState
        (some morningSchedule)).2.count Event.notify = 1 ∧
    (ScheduleMonitor.apply_schedule freshEngineState
        (some morningSchedule)).2.count Event.persist =
      (if ScheduleMonitor.applyChanged freshEngineState morningSchedule
       then 1 else 0) ∧
    ScheduleMonitor.apply_schedule
        (ScheduleMonitor.apply_schedule freshEngineState
          (some morningSchedule)).1 (some morningSchedule) =
      ((ScheduleMonitor.apply_schedule freshEngineState
          (some morningSchedule)).1, []) :=
  ⟨by decide,
    (C8_idempotent_application_amended.2.2 freshEngineState morningSchedule
      (by decide)).1,
    (C8_idempotent_application_amended.2.2 freshEngineState morningSchedule
      (by decide)).2,
    C8_idempotent_application_amended.2.1 freshEngineState morningSchedule⟩

/-- C9 counterexample: submitting the manual-targets form with values equal
to the ones already in effect (AC 75, heater 72, as in the default config)
still flips the mode out of Automatic — `_handle_update` enters a hold on
EVERY valid submission, with no value-change check anywhere. -/
theorem C9_hold_on_submission_counterexample :
    automaticEngineState.config.schedule_enabled = some true ∧
    ({ ac_target := some 75, heater_target := some 72 } :
        UpdateParams).ac_target = automaticEngineState.config.ac_target ∧
    ({ ac_target := some 75, heater_target := some 72 } :
        UpdateParams).heater_target =
      automaticEngineState.config.heater_target ∧
    (TempWebServer.handle_update automaticEngineState
        { ac_target := some 75, heater_target := some 72 }
        100).1.config.schedule_enabled = some false := by
  decide

/-- C9 (amended): every manual-targets submission that passes validation
enters a hold mode — temporary unless `hold_type` is `'perm'`, recording the
submission time as the hold start — regardless of whether the submitted
values differ from the current targets.  (The source in this tree is the
"always enter hold on any submitted update" variant.) -/
theorem C9_hold_on_submission_amended (st : EngineState) (p : UpdateParams)
    (now : ℚ)
    (hvalid : ¬ p.heater_target.getD (st.config.heater_target.getD 80) >
      p.ac_target.getD (st.config.ac_target.getD 77)) :
    (TempWebServer.handle_update st p now).1.config.schedule_enabled =
        some false ∧
    (TempWebServer.handle_update st p now).1.config.permanent_hold =
        some (decide (p.hold_type.getD ("temp".data) = "perm".data)) ∧
    (TempWebServer.handle_update st p now).1.config.temp_hold_start_time =
        some (if decide (p.hold_type.getD ("temp".data) = "perm".data)
              then none else some now) ∧
    (TempWebServer.handle_update st p now).2.1 = HandlerResult.statusPage ∧
    (TempWebServer.handle_update st p now).2.2 =
        [Event.persist, Event.notify] := by
  simp only [TempWebServer.handle_update, if_neg hvalid]
  cases p.ac_target <;> cases p.heater_target <;>
    simp [ScheduleMonitor.reload_config]

theorem C9_hold_on_submission_amended_witness :
    (¬ ({ ac_target := some 75, heater_target := some 72 } :
        UpdateParams).heater_target.getD
          (automaticEngineState.config.heater_target.getD 80) >
      ({ ac_target := some 75, heater_target := some 72 } :
        UpdateParams).ac_target.getD
          (automaticEngineState.config.ac_target.getD 77)) ∧
    (TempWebServer.handle_update automaticEngineState
        { ac_target := some 75, heater_target := some 72 }
        100).1.config.schedule_enabled = some false :=
  ⟨by decide,
    (C9_hold_on_submission_amended automaticEngineState
      { ac_target := some 75, heater_target := some 72 } 100 (by decide)).1⟩




/-- C10 counterexample: the dashboard temporary-hold branch does not touch
`temp_hold_start_time`, so entering it while a stale timestamp is present
(here: timestamp 0, duration 3600) leaves the timestamp in place, and the
engine tick at time 3600 fires the expiry check and returns the mode to
Automatic — the dashboard-entered hold DID auto-expire, contradicting the
claim that such a hold records no timestamp and never auto-expires. -/
theorem C10_dashboard_hold_counterexample :
    (TempWebServer.handle_schedule_update staleEngineState
        (some ("temporary_hold".data)) [] 120).1.config.temp_hold_start_time =
      some (some 0) ∧
    (TempWebServer.handle_schedule_update staleEngineState
        (some ("temporary_hold".data)) [] 120).1.config.schedule_enabled =
      some false ∧
    (ScheduleMonitor.run
        (TempWebServer.handle_schedule_update staleEngineState
          (some ("temporary_hold".data)) [] 120).1 3600
        120).1.config.schedule_enabled = some true := by
  have hstep : (TempWebServer.handle_schedule_update staleEngineState
      (some ("temporary_hold".data)) [] 120).1 = heldStaleState := by decide
  refine ⟨by decide, by decide, ?_⟩
  rw [hstep]
  norm_num [ScheduleMonitor.run, ScheduleMonitor.find_active_schedule,
    resumeFlags, heldStaleState, defaultConfig]

/-- A tick of the schedule engine in a hold with no recorded start time is a
complete no-op: the expiry guard requires a non-null timestamp, and schedule
resolution is disabled. -/
lemma hold_no_timer_tick (st : EngineState) (now : ℚ) (cur : ℤ)
    (hEn : st.config.schedule_enabled.getD false = false)
    (hStart : st.config.temp_hold_start_time.getD none = none) :
    ScheduleMonitor.run st now cur = (st, []) := by
  have hfind : ScheduleMonitor.find_active_schedule st.config cur = none := by
    simp [ScheduleMonitor.find_active_schedule, hEn]
  by_cases hperm : st.config.permanent_hold.getD false <;>
    simp [ScheduleMonitor.run, hEn, hperm, hStart, hfind]

/-- C10 (amended): the dashboard's explicit temporary-hold action pauses
schedules and clears the permanent flag but leaves `temp_hold_start_time`
exactly as it was (it records no timestamp of its own); when that field is
null at the time of the action — the case for every hold entered from a
state without a stale manual-hold timestamp — the engine's expiry check can
never fire and any number of subsequent engine ticks leaves the hold in
place, until an explicit resume or a reboot. -/
theorem C10_dashboard_hold_never_expires :
    (∀ (st : EngineState) (slots : List SlotParams) (cur : ℤ),
        (TempWebServer.handle_schedule_update st (some ("temporary_hold".data))
            slots cur).1.config.temp_hold_start_time =
          st.config.temp_hold_start_time ∧
        (TempWebServer.handle_schedule_update st (some ("temporary_hold".data))
            slots cur).1.config.schedule_enabled = some false ∧
        (TempWebServer.handle_schedule_update st (some ("temporary_hold".data))
            slots cur).1.config.permanent_hold = some false ∧
        (TempWebServer.handle_schedule_update st (some ("temporary_hold".data))
            slots cur).2.1 = HandlerResult.redirect ∧
        (TempWebServer.handle_schedule_update st (some ("temporary_hold".data))
            slots cur).2.2 = [Event.persist, Event.notify]) ∧
    (∀ st : EngineState,
        st.config.schedule_enabled.getD false = false →
        st.config.temp_hold_start_time.getD none = none →
        ∀ ticks : List (ℚ × ℤ), ScheduleMonitor.runTrace st ticks = st) := by
  constructor
  · intro st slots cur
    have h1 : ¬ (("temporary_hold".data : PyStr) = "resume".data) := by decide
    simp [TempWebServer.handle_schedule_update, h1,
      ScheduleMonitor.reload_config]
  · intro st hEn hStart ticks
    induction ticks with
    | nil => rfl
    | cons e rest ih =>
      obtain ⟨now, cur⟩ := e
      show ScheduleMonitor.runTrace (ScheduleMonitor.run st now cur).1 rest = st
      rw [hold_no_timer_tick st now cur hEn hStart]
      exact ih

theorem C10_dashboard_hold_never_expires_witness :
    noTimerHoldState.config.schedule_enabled.getD false = false ∧
    noTimerHoldState.config.temp_hold_start_time.getD none = none ∧
    ScheduleMonitor.runTrace noTimerHoldState [(3601, 120), (99999, 500)] =
      noTimerHoldState :=
  ⟨rfl, rfl,
    C10_dashboard_hold_never_expires.2 noTimerHoldState rfl rfl
      [(3601, 120), (99999, 500)]⟩





/-- The float conversions of the bad slot produce 75 and 80. -/
lemma badRawSlot_toSchedule : badRawSlot.toSchedule = badSchedule := by
  have h7 : '7'.toNat - 48 = 7 := by decide
  have h5 : '5'.toNat - 48 = 5 := by decide
  have h8 : '8'.toNat - 48 = 8 := by decide
  have h0 : '0'.toNat - 48 = 0 := by decide
  simp only [RawSlot.toSchedule, badRawSlot, badSchedule]
  norm_num [ratOfFloatParse, digitsVal, List.foldl, h7, h5, h8, h0]

/-- The slot-parsing loop accepts `badSlots`, producing the bad schedule
with the form-data flag set. -/
lemma parseSlots_badSlots :
    parseSlots 0 badSlots = Except.ok ([badSchedule], true) := by
  have hraw : parseSlotsRaw 0 badSlots = Except.ok ([badRawSlot], true) := by
    decide
  simp [parseSlots, hraw, badRawSlot_toSchedule, Except.map]

/-- The heater-above-AC check fires on the bad schedule. -/
lemma validateSchedules_badSchedule : validateSchedules [badSchedule] = true := by
  norm_num [validateSchedules, badSchedule]

/-- C5 counterexample: a schedule save whose only entry has heater 80 > AC
75 is rejected with the "Invalid Schedule" error page and persists nothing —
but the in-memory `config['schedules']` has already been replaced by the
submitted list (web_server.py line 446 runs before the validation loop at
line 452), so the rejected request does leave a stray mutation behind. -/
theorem C5_validation_atomicity_counterexample :
    (TempWebServer.handle_schedule_update scheduleSaveState
        (some ("save_schedules".data)) badSlots 120).2.1 =
      HandlerResult.errorPage ("Invalid Schedule".data) ∧
    (TempWebServer.handle_schedule_update scheduleSaveState
        (some ("save_schedules".data)) badSlots 120).2.2 = [] ∧
    (TempWebServer.handle_schedule_update scheduleSaveState
        (some ("save_schedules".data)) badSlots 120).1.config.schedules =
      some [badSchedule] ∧
    scheduleSaveState.config.schedules = some [] ∧
    (TempWebServer.handle_schedule_update scheduleSaveState
        (some ("save_schedules".data)) badSlots 120).1.config.schedules ≠
      scheduleSaveState.config.schedules := by
  have h1 : ¬ (("save_schedules".data : PyStr) = "resume".data) := by decide
  have h2 : ¬ (("save_schedules".data : PyStr) = "temporary_hold".data) := by
    decide
  have h3 : ¬ (("save_schedules".data : PyStr) = "permanent_hold".data) := by
    decide
  have hres : TempWebServer.handle_schedule_update scheduleSaveState
      (some ("save_schedules".data)) badSlots 120 =
      ({ scheduleSaveState with config :=
          { scheduleSaveState.config with schedules := some [badSchedule] } },
        HandlerResult.errorPage ("Invalid Schedule".data), []) := by
    simp [TempWebServer.handle_schedule_update, h1, h2, h3,
      parseSlots_badSlots, validateSchedules_badSchedule]
  rw [hres]
  refine ⟨rfl, rfl, rfl, rfl, by simp [scheduleSaveState]⟩

/-- C5 (amended): a manual-targets submission with heater above AC is
rejected atomically — error page, no event, engine state bit-for-bit
unchanged.  A schedule save with a heater-above-AC entry is likewise
rejected with an error page, persists nothing and leaves the targets and
monitor fields unchanged, BUT the in-memory schedule list has already been
replaced by the submitted list before the validation runs (when the form
carried schedule data); that replacement is the only mutation that survives
the rejection. -/
theorem C5_validation_rejection (st : EngineState) (p : UpdateParams)
    (now : ℚ) (mode_action : Option PyStr) (slots : List SlotParams)
    (cur : ℤ) (schedules : List Schedule) (hasAny : Bool)
    (hp : p.heater_target.getD (st.config.heater_target.getD 80) >
      p.ac_target.getD (st.config.ac_target.getD 77))
    (hm1 : ¬ (mode_action.getD [] = "resume".data))
    (hm2 : ¬ (mode_action.getD [] = "temporary_hold".data))
    (hm3 : ¬ (mode_action.getD [] = "permanent_hold".data))
    (hparse : parseSlots 0 slots = Except.ok (schedules, hasAny))
    (hval : validateSchedules schedules = true) :
    TempWebServer.handle_update st p now =
      (st, HandlerResult.errorPage ("Invalid Settings".data), []) ∧
    TempWebServer.handle_schedule_update st mode_action slots cur =
      ((if hasAny then
          { st with config := { st.config with schedules := some schedules } }
        else st),
        HandlerResult.errorPage ("Invalid Schedule".data), []) := by
  constructor
  · simp [TempWebServer.handle_update, hp]
  · simp [TempWebServer.handle_schedule_update, hm1, hm2, hm3, hparse, hval]

theorem C5_validation_rejection_witness :
    (({ heater_target := some 80, ac_target := some 75 } :
        UpdateParams).heater_target.getD
          (scheduleSaveState.config.heater_target.getD 80) >
      ({ heater_target := some 80, ac_target := some 75 } :
        UpdateParams).ac_target.getD
          (scheduleSaveState.config.ac_target.getD 77)) ∧
    parseSlots 0 badSlots = Except.ok ([badSchedule], true) ∧
    validateSchedules [badSchedule] = true ∧
    TempWebServer.handle_update scheduleSaveState
        { heater_target := some 80, ac_target := some 75 } 100 =
      (scheduleSaveState, HandlerResult.errorPage ("Invalid Settings".data),
        []) ∧
    TempWebServer.handle_schedule_update scheduleSaveState
        (some ("save_schedules".data)) badSlots 120 =
      ({ scheduleSaveState with config :=
          { scheduleSaveState.config with schedules := some [badSchedule] } },
        HandlerResult.errorPage ("Invalid Schedule".data), []) :=
  ⟨by decide, parseSlots_badSlots, validateSchedules_badSchedule,
    (C5_validation_rejection scheduleSaveState
      { heater_target := some 80, ac_target := some 75 } 100
      (some ("save_schedules".data)) badSlots 120 [badSchedule] true
      (by decide) (by decide) (by decide) (by decide)
      parseSlots_badSlots validateSchedules_badSchedule).1,
    (C5_validation_rejection scheduleSaveState
      { heater_target := some 80, ac_target := some 75 } 100
      (some ("save_schedules".data)) badSlots 120 [badSchedule] true
      (by decide) (by decide) (by decide) (by decide)
      parseSlots_badSlots validateSchedules_badSchedule).2⟩

end Thermostat
